import Mathlib

/-!
Verification development for the u1-slicer-bridge 3MF transform pipeline.

Shallow embedding conventions:
* Python floats are modelled as rationals (ℚ); all comparisons in the
  embedded code are exact comparisons the source performs on IEEE doubles.
* `apps/api/app/transform_3mf.py` and `apps/api/app/multi_plate_parser.py`
  parse whitespace-separated transform strings with Python `float`; a token
  list is modelled as `List (Option ℚ)` where `none` stands for a token on
  which `float` raises `ValueError`, and the whole string argument as
  `Option (List (Option ℚ))` where `none` stands for Python `None`
  (an empty string splits to the empty token list).
* Functions that read files (ZIP members, plate metadata) are embedded with
  the file-read results passed as explicit arguments.
-/

namespace U1Bridge

/-- `IDENTITY_3MF` from `transform_3mf.py`: the 3x4 row-major identity. -/
def IDENTITY_3MF : List ℚ :=
  [1, 0, 0,
   0, 1, 0,
   0, 0, 1,
   0, 0, 0]

/-- `_parse_3mf_transform` from `transform_3mf.py`.
`none` input models Python `None`; an empty/whitespace string models as
`some []`.  A `none` token models a substring on which `float` raises, in
which case the source returns the identity. -/
def parse3mfTransform (transformStr : Option (List (Option ℚ))) : List ℚ :=
  match transformStr with
  | none => IDENTITY_3MF
  | some toks =>
    if toks.any (·.isNone) then IDENTITY_3MF
    else
      let values := toks.reduceOption
      if values.length = 12 then values
      else if values.length = 16 then
        [values.getD 0 0, values.getD 1 0, values.getD 2 0,
         values.getD 4 0, values.getD 5 0, values.getD 6 0,
         values.getD 8 0, values.getD 9 0, values.getD 10 0,
         values.getD 12 0, values.getD 13 0, values.getD 14 0]
      else IDENTITY_3MF

/-- `_parse_3mf_transform_values` from `multi_plate_parser.py`.  The source
does `(transform_str or "").split()` and maps `float`, falling back to `[]`
on `ValueError`, then applies the same length dispatch; `default_identity`
selects between identity and `[]` for unrecognized lengths. -/
def parse3mfTransformValues (transformStr : Option (List (Option ℚ)))
    (defaultIdentity : Bool) : List ℚ :=
  let values :=
    match transformStr with
    | none => []
    | some toks => if toks.any (·.isNone) then [] else toks.reduceOption
  if values.length = 12 then values
  else if values.length = 16 then
    [values.getD 0 0, values.getD 1 0, values.getD 2 0,
     values.getD 4 0, values.getD 5 0, values.getD 6 0,
     values.getD 8 0, values.getD 9 0, values.getD 10 0,
     values.getD 12 0, values.getD 13 0, values.getD 14 0]
  else if defaultIdentity then IDENTITY_3MF
  else []

/-- Numeric value printed by the inner `fmt` of `_format_3mf_transform`
(`transform_3mf.py`): magnitudes below `1e-10` are flushed to `0.0`, then
the value is rendered with `f"{v:.6f}"` (round to 6 decimal places; Python
breaks exact decimal ties on the underlying binary double, any such tie is
within half a grid step of the value modelled here), and trailing-zero
trimming plus the `".0"` suffix rule never change the numeric value of the
token.  `fmtValue v` is therefore the value the emitted token parses back
to. -/
def fmtValue (v : ℚ) : ℚ :=
  if |v| < 1 / 10 ^ 10 then 0
  else (round (v * 10 ^ 6) : ℤ) / 10 ^ 6

/-- `_format_3mf_transform` followed by re-parsing, at value level: the
source joins `fmt v` for the first 12 values with single spaces, so the
output splits back into exactly those 12 numeric tokens. -/
def formatParse3mfTransform (values : List ℚ) : List ℚ :=
  (values.take 12).map fmtValue

/-- A 3D axis-aligned bounding box: the `{"min": [...], "max": [...]}`
dictionaries carried in build-item metadata (`world_bounds`,
`local_bounds`). -/
structure BBox3 where
  minX : ℚ
  minY : ℚ
  minZ : ℚ
  maxX : ℚ
  maxY : ℚ
  maxZ : ℚ
  deriving DecidableEq, Repr

/-- `_transform_point_3x4` from `multi_plate_parser.py`; `t` is a 12-entry
row-major affine (indexing via `getD` mirrors the source's direct `t[i]` on
lists known to hold 12 floats). -/
def transformPoint3x4 (t : List ℚ) (x y z : ℚ) : ℚ × ℚ × ℚ :=
  (t.getD 0 0 * x + t.getD 1 0 * y + t.getD 2 0 * z + t.getD 9 0,
   t.getD 3 0 * x + t.getD 4 0 * y + t.getD 5 0 * z + t.getD 10 0,
   t.getD 6 0 * x + t.getD 7 0 * y + t.getD 8 0 * z + t.getD 11 0)

/-- `_apply_affine_to_bounds_3x4` from `multi_plate_parser.py`: transform
all 8 corners and return the enclosing axis-aligned box. -/
def applyAffineToBounds3x4 (b : BBox3) (t : List ℚ) : BBox3 :=
  let corners :=
    [transformPoint3x4 t b.minX b.minY b.minZ,
     transformPoint3x4 t b.minX b.minY b.maxZ,
     transformPoint3x4 t b.minX b.maxY b.minZ,
     transformPoint3x4 t b.minX b.maxY b.maxZ,
     transformPoint3x4 t b.maxX b.minY b.minZ,
     transformPoint3x4 t b.maxX b.minY b.maxZ,
     transformPoint3x4 t b.maxX b.maxY b.minZ,
     transformPoint3x4 t b.maxX b.maxY b.maxZ]
  { minX := (corners.map (·.1)).foldr min (corners.headI).1
    minY := (corners.map (·.2.1)).foldr min (corners.headI).2.1
    minZ := (corners.map (·.2.2)).foldr min (corners.headI).2.2
    maxX := (corners.map (·.1)).foldr max (corners.headI).1
    maxY := (corners.map (·.2.1)).foldr max (corners.headI).2.1
    maxZ := (corners.map (·.2.2)).foldr max (corners.headI).2.2 }

/-- `_detect_origin_offset_xy` from `routes_slice.py` (lines 550-613).
The source only reads each item's `world_bounds` min/max X and Y, so the
embedding takes the list of optional world bounds directly.  Items whose
bounds dictionary is missing are skipped by the accumulation loop; if no
bounds at all are found the function defaults to the bed-center offset. -/
def detectOriginOffsetXY (bounds : List (Option BBox3)) (bedX bedY : ℚ) :
    ℚ × ℚ :=
  let bedCx := bedX / 2
  let bedCy := bedY / 2
  let bs := bounds.reduceOption
  match bs with
  | [] => (bedCx, bedCy)
  | b0 :: rest =>
    let allMinX := (rest.map (·.minX)).foldr min b0.minX
    let allMaxX := (rest.map (·.maxX)).foldr max b0.maxX
    let allMinY := (rest.map (·.minY)).foldr min b0.minY
    let allMaxY := (rest.map (·.maxY)).foldr max b0.maxY
    let margin : ℚ := 2
    let shiftedFits :=
      allMinX + bedCx ≥ -margin ∧ allMaxX + bedCx ≤ bedX + margin ∧
      allMinY + bedCy ≥ -margin ∧ allMaxY + bedCy ≤ bedY + margin
    let rawFits :=
      allMinX ≥ -margin ∧ allMaxX ≤ bedX + margin ∧
      allMinY ≥ -margin ∧ allMaxY ≤ bedY + margin
    if rawFits ∧ shiftedFits then (0, 0)
    else if shiftedFits then (bedCx, bedCy)
    else if rawFits then (0, 0)
    else (bedCx, bedCy)

/-- First loop of `_fold_packed_plate_coord`: `for _ in range(8): if v >= 0:
break; v += s`, written with explicit fuel. -/
def foldPackedUp (v s : ℚ) : ℕ → ℚ
  | 0 => v
  | n + 1 => if v ≥ 0 then v else foldPackedUp (v + s) s n

/-- Second loop of `_fold_packed_plate_coord`: `for _ in range(8): if v <= b:
break; v -= s`, written with explicit fuel. -/
def foldPackedDown (v s b : ℚ) : ℕ → ℚ
  | 0 => v
  | n + 1 => if v ≤ b then v else foldPackedDown (v - s) s b n

/-- `_fold_packed_plate_coord` from `routes_slice.py` (lines 464-479). -/
def foldPackedPlateCoord (value step bedSize : ℚ) : ℚ :=
  let b := max 1 bedSize
  if ¬ step > 0 then value
  else foldPackedDown (foldPackedUp value step 8) step b 8

/-- A 3-vector of coordinates (Python 3-element float list). -/
structure Vec3 where
  x : ℚ
  y : ℚ
  z : ℚ
  deriving DecidableEq, Repr

/-- One `/layout` item dictionary as consumed by the placement-frame
functions in `routes_slice.py`: 1-based `build_item_index`, the core
build-item `translation`, the optional Bambu `assemble_translation`, the
optional `world_bounds` / `assemble_world_bounds`, plus the `ui_base_pose`
the mapping stage writes back. -/
structure LayoutItem where
  buildItemIndex : ℤ
  translation : Vec3
  assembleTranslation : Option Vec3
  worldBounds : Option BBox3
  assembleWorldBounds : Option BBox3
  uiBasePose : Option (Vec3 × ℚ) := none
  deriving DecidableEq, Repr

/-- Frame confidence marker (`"exact"` / `"approximate"`). -/
inductive Confidence where
  | exact
  | approximate
  deriving DecidableEq, Repr

/-- The `mapping` strategy tag of a placement frame. -/
inductive MappingKind where
  | direct
  | bambuPlateTranslationOffset
  | bambuPackedGridFold
  | centeredPreviewOffset
  deriving DecidableEq, Repr

/-- The placement-frame dictionary built by `_derive_layout_placement_frame`
(`routes_slice.py`); the free-text `notes` and `origin_detected` strings are
not modelled. -/
structure PlacementFrame where
  confidence : Confidence
  mapping : MappingKind
  offsetXY : ℚ × ℚ
  objectTransformEdit : Bool
  primeTowerEdit : Bool
  packedGridStepXY : Option (ℚ × ℚ) := none
  plateTranslationMm : Option Vec3 := none
  deriving DecidableEq, Repr

/-- `round(x, 6)`, used when the selected plate translation is echoed into
the frame. -/
def pyRound6 (q : ℚ) : ℚ := (round (q * 10 ^ 6) : ℤ) / 10 ^ 6

/-- `_layout_item_base_xyz` from `routes_slice.py` (lines 482-489): multi-
plate items prefer the assemble translation for XY but always keep the core
build-item Z. -/
def layoutItemBaseXYZ (it : LayoutItem) (isMultiPlate : Bool) : ℚ × ℚ × ℚ :=
  let coreT := it.translation
  match isMultiPlate, it.assembleTranslation with
  | true, some asmT => (asmT.x, asmT.y, coreT.z)
  | _, _ => (coreT.x, coreT.y, coreT.z)

/-- `_apply_layout_bambu_plate_translation_offset_mapping` from
`routes_slice.py` (lines 695-755).  `plateTranslations` is the result of
`_read_multi_plate_translations_by_id` (a dict keyed by 1-based parser
plate id).  Returns the (frame, items) pair; the source mutates both in
place. -/
def applyLayoutBambuPlateTranslationOffsetMapping
    (frame : PlacementFrame) (items : List LayoutItem)
    (plateTranslations : List (ℤ × Vec3)) (bedX bedY : ℚ)
    (allowObjectEdit : Bool) : PlacementFrame × List LayoutItem :=
  if plateTranslations.isEmpty then (frame, items)
  else
    let bedCx := bedX / 2
    let bedCy := bedY / 2
    if items.any (fun it =>
        it.buildItemIndex ≤ 0 ∨
          (plateTranslations.lookup it.buildItemIndex).isNone) then
      (frame, items)
    else
      let frame₁ : PlacementFrame :=
        { frame with
          confidence := if allowObjectEdit then .exact else .approximate
          mapping := .bambuPlateTranslationOffset
          offsetXY := (0, 0)
          objectTransformEdit := allowObjectEdit
          primeTowerEdit := true }
      let frame₂ : PlacementFrame :=
        match items with
        | [it] =>
          match plateTranslations.lookup it.buildItemIndex with
          | some pt =>
            let mm : Vec3 := ⟨pyRound6 pt.x, pyRound6 pt.y, pyRound6 pt.z⟩
            { frame₁ with plateTranslationMm := some mm }
          | none => frame₁
        | _ => frame₁
      let items' := items.map (fun it =>
        match plateTranslations.lookup it.buildItemIndex with
        | some pt =>
          let coreT := it.translation
          let ux := (coreT.x - pt.x) + bedCx
          let uy := (coreT.y - pt.y) + bedCy
          { it with uiBasePose := some (⟨ux, uy, coreT.z⟩, 0) }
        | none => it)
      (frame₂, items')

/-- `_apply_layout_bambu_packed_grid_fold_mapping` from `routes_slice.py`
(lines 758-785). -/
def applyLayoutBambuPackedGridFoldMapping
    (frame : PlacementFrame) (items : List LayoutItem)
    (packedGridStepX packedGridStepY : ℚ) (bedX bedY : ℚ) :
    PlacementFrame × List LayoutItem :=
  let frame' : PlacementFrame :=
    { frame with
      confidence := .approximate
      mapping := .bambuPackedGridFold
      packedGridStepXY :=
        some (pyRound6 packedGridStepX, pyRound6 packedGridStepY)
      objectTransformEdit := false
      primeTowerEdit := true }
  let items' := items.map (fun it =>
    let xyz := layoutItemBaseXYZ it true
    let ux := foldPackedPlateCoord xyz.1 packedGridStepX bedX
    let uy := foldPackedPlateCoord xyz.2.1 packedGridStepY bedY
    { it with uiBasePose := some (⟨ux, uy, xyz.2.2⟩, 0) })
  (frame', items')

/-- `_apply_layout_centered_preview_offset_mapping` from `routes_slice.py`
(lines 788-842). -/
def applyLayoutCenteredPreviewOffsetMapping
    (frame : PlacementFrame) (items : List LayoutItem)
    (isMultiPlate : Bool) (bedX bedY : ℚ)
    (validationBounds : Option BBox3) : PlacementFrame × List LayoutItem :=
  let assembleBounds := (items.map (·.assembleWorldBounds)).reduceOption
  let center : Option (ℚ × ℚ) :=
    match assembleBounds with
    | b0 :: rest =>
      let minX := (rest.map (·.minX)).foldr min b0.minX
      let minY := (rest.map (·.minY)).foldr min b0.minY
      let maxX := (rest.map (·.maxX)).foldr max b0.maxX
      let maxY := (rest.map (·.maxY)).foldr max b0.maxY
      some ((minX + maxX) / 2, (minY + maxY) / 2)
    | [] =>
      match validationBounds with
      | some vb => some ((vb.minX + vb.maxX) / 2, (vb.minY + vb.maxY) / 2)
      | none => none
  let centerXY : ℚ × ℚ :=
    match center with
    | some c => c
    | none =>
      let pts := items.map (fun it => layoutItemBaseXYZ it isMultiPlate)
      ((pts.map (·.1)).sum / max 1 pts.length,
       (pts.map (·.2.1)).sum / max 1 pts.length)
  let offX := bedX / 2 - centerXY.1
  let offY := bedY / 2 - centerXY.2
  let frame' : PlacementFrame :=
    { frame with
      confidence := if isMultiPlate then .approximate else .exact
      mapping := .centeredPreviewOffset
      offsetXY := (offX, offY)
      objectTransformEdit := !isMultiPlate
      primeTowerEdit := true }
  let items' := items.map (fun it =>
    let xyz := layoutItemBaseXYZ it isMultiPlate
    { it with uiBasePose := some (⟨xyz.1 + offX, xyz.2.1 + offY, xyz.2.2⟩, 0) })
  (frame', items')

/-- `_apply_layout_direct_mapping` from `routes_slice.py` (lines 658-692).
`recenterOffset` is the result of `_compute_bed_recenter_offset` (a file
read of the source printable_area). -/
def applyLayoutDirectMapping
    (frame : PlacementFrame) (items : List LayoutItem)
    (isMultiPlate : Bool) (bedX bedY : ℚ) (recenterOffset : ℚ × ℚ) :
    PlacementFrame × List LayoutItem :=
  let offset :=
    if |recenterOffset.1| < 1 / 100 ∧ |recenterOffset.2| < 1 / 100 then
      detectOriginOffsetXY (items.map (·.worldBounds)) bedX bedY
    else recenterOffset
  let frame' : PlacementFrame :=
    { frame with
      confidence := .exact
      mapping := .direct
      offsetXY := (0, 0)
      objectTransformEdit := true
      primeTowerEdit := true }
  let items' := items.map (fun it =>
    let xyz := layoutItemBaseXYZ it isMultiPlate
    let pose : Vec3 := ⟨xyz.1 + offset.1, xyz.2.1 + offset.2, xyz.2.2⟩
    { it with uiBasePose := some (pose, 0) })
  (frame', items')

/-- `_derive_layout_placement_frame` from `routes_slice.py`
(lines 845-923).  The two file reads it performs —
`_infer_bambu_packed_grid_steps` and `_read_multi_plate_translations_by_id`
on `source_3mf` — are passed in as `packedGridSteps` and
`plateTranslations`; `recenterOffset` stands for
`_compute_bed_recenter_offset` inside the direct mapping. -/
def deriveLayoutPlacementFrame
    (items : List LayoutItem) (isMultiPlate : Bool) (plateId : Option ℤ)
    (bedX bedY : ℚ) (plateTranslations : List (ℤ × Vec3))
    (packedGridSteps : Option ℚ × Option ℚ) (recenterOffset : ℚ × ℚ)
    (validationBounds : Option BBox3) : PlacementFrame × List LayoutItem :=
  let frame : PlacementFrame :=
    { confidence := if isMultiPlate then .approximate else .exact
      mapping := .direct
      offsetXY := (0, 0)
      objectTransformEdit := !isMultiPlate
      primeTowerEdit := true }
  if items.isEmpty then (frame, items)
  else if !isMultiPlate then
    applyLayoutDirectMapping frame items false bedX bedY recenterOffset
  else
    let tryPlateTranslation :=
      if plateTranslations.isEmpty then none
      else
        let canExactSelectedPlate := plateId.isSome ∧ items.length = 1
        let mapped := applyLayoutBambuPlateTranslationOffsetMapping
          frame items plateTranslations bedX bedY
          (decide canExactSelectedPlate)
        if mapped.1.mapping = .bambuPlateTranslationOffset then some mapped
        else none
    match tryPlateTranslation with
    | some mapped => mapped
    | none =>
      match packedGridSteps with
      | (some sx, some sy) =>
        if sx > 0 ∧ sy > 0 then
          applyLayoutBambuPackedGridFoldMapping frame items sx sy bedX bedY
        else
          applyLayoutCenteredPreviewOffsetMapping frame items true bedX bedY
            validationBounds
      | _ =>
        applyLayoutCenteredPreviewOffsetMapping frame items true bedX bedY
          validationBounds

/-- One build-item dictionary produced by `list_build_items_3mf` as consumed
by `_enforce_transformed_bounds_or_raise` (`routes_slice.py`): 1-based
`build_item_index`, the object id (the source normalizes a missing id to the
empty string with `str(it.get("object_id") or "")`), the `printable` flag,
and the optional `world_bounds` / `local_bounds` boxes. -/
structure BuildItemInfo where
  buildItemIndex : ℤ
  objectId : String
  printable : Bool
  worldBounds : Option BBox3
  localBounds : Option BBox3
  deriving DecidableEq, Repr

/-- The file-read results consumed by `_enforce_transformed_bounds_or_raise`
beyond the item list itself: the Bambu `assemble_item` transform/object-id
maps of the (transformed) file, those of the optional baseline file, the
baseline's parsed per-plate translations as used by
`_get_bambu_plate_translation_ui_offset`, and the baseline build items used
by the core-bounds fallback.  An absent baseline file is modelled by
`hasBaseline := false` with the baseline maps empty. -/
structure EnforceEnv where
  assembleTransforms : List (ℤ × List ℚ)
  assembleTransformsByObject : List (String × List ℚ)
  assembleObjectIdsByIndex : List (ℤ × String)
  hasBaseline : Bool
  baselineAssembleTransforms : List (ℤ × List ℚ)
  baselineAssembleTransformsByObject : List (String × List ℚ)
  plateTranslationsRef : List (ℤ × Vec3)
  baselineItems : List BuildItemInfo
  plateId : Option ℤ
  volX : ℚ
  volY : ℚ
  volZ : ℚ
  deriving Repr

/-- `_bounds_from_local_and_transform` inside
`_enforce_transformed_bounds_or_raise`: transform the item's local bounds by
the given 12-float affine, `none` when either piece is missing. -/
def boundsFromLocalAndTransform (it : BuildItemInfo) (t : Option (List ℚ)) :
    Option BBox3 :=
  match t, it.localBounds with
  | some t3, some lb => some (applyAffineToBounds3x4 lb t3)
  | _, _ => none

/-- `_check_wb_in_volume` inside `_enforce_transformed_bounds_or_raise`:
the box must lie inside `[0,vol]` on every axis at `1e-6` tolerance. -/
def checkWbInVolume (volX volY volZ : ℚ) (wb : BBox3) : Bool :=
  let tol : ℚ := 1 / 10 ^ 6
  wb.minX ≥ -tol ∧ wb.minY ≥ -tol ∧ wb.minZ ≥ -tol ∧
  wb.maxX ≤ volX + tol ∧ wb.maxY ≤ volY + tol ∧ wb.maxZ ≤ volZ + tol

/-- `_get_bambu_plate_translation_ui_offset` (`routes_slice.py`, lines
532-547), with the reference file's parsed plate translations passed in; the
reference path handed over by the enforcement code is never `None`. -/
def getBambuPlateTranslationUiOffset (plateTranslationsRef : List (ℤ × Vec3))
    (plateId : Option ℤ) (bedX bedY : ℚ) : Option (ℚ × ℚ) :=
  match plateId with
  | none => none
  | some pid =>
    match plateTranslationsRef.lookup pid with
    | none => none
    | some pt => some (bedX / 2 - pt.x, bedY / 2 - pt.y)

/-- The Python idiom `dict_a.get(key_a) or dict_b.get(key_b)` on the two
assemble-transform maps (a stored transform list is non-empty, hence
truthy). -/
def lookupAssemble (byObject : List (String × List ℚ))
    (byIndex : List (ℤ × List ℚ)) (oid : String) (idx : ℤ) :
    Option (List ℚ) :=
  match byObject.lookup oid with
  | some t => some t
  | none => byIndex.lookup idx

/-- Union XY center of a non-empty list of boxes, as computed by the two
baseline-offset fallbacks in `_enforce_transformed_bounds_or_raise`. -/
def bboxListCenterXY (b0 : BBox3) (rest : List BBox3) : ℚ × ℚ :=
  let minX := (rest.map (·.minX)).foldr min b0.minX
  let minY := (rest.map (·.minY)).foldr min b0.minY
  let maxX := (rest.map (·.maxX)).foldr max b0.maxX
  let maxY := (rest.map (·.maxY)).foldr max b0.maxY
  ((minX + maxX) / 2, (minY + maxY) / 2)

/-- The `assemble_preview_offset_xy` resolution chain of
`_enforce_transformed_bounds_or_raise` (lines 240-302): baseline plate
translation offset, then baseline assemble-derived centering, then baseline
core-bounds centering, then origin-offset detection (adopted only when
non-zero beyond `1e-6`). -/
def resolveAssemblePreviewOffset (env : EnforceEnv)
    (itemsWithBounds : List BuildItemInfo) : Option (ℚ × ℚ) :=
  let off₁ := getBambuPlateTranslationUiOffset env.plateTranslationsRef
    env.plateId env.volX env.volY
  let off₂ :=
    match off₁ with
    | some o => some o
    | none =>
      if env.plateId.isSome ∧ ¬ env.baselineAssembleTransforms.isEmpty ∧
          ¬ itemsWithBounds.isEmpty then
        let baselineWbs := (itemsWithBounds.map (fun (it : BuildItemInfo) =>
          let t0 := lookupAssemble env.baselineAssembleTransformsByObject
            env.baselineAssembleTransforms it.objectId it.buildItemIndex
          boundsFromLocalAndTransform it t0)).reduceOption
        match baselineWbs with
        | b0 :: rest =>
          let c := bboxListCenterXY b0 rest
          some (env.volX / 2 - c.1, env.volY / 2 - c.2)
        | [] => none
      else none
  let off₃ :=
    match off₂ with
    | some o => some o
    | none =>
      if env.plateId.isSome ∧ env.hasBaseline then
        let baselineWithBounds := ((env.baselineItems.filter
          (fun (it : BuildItemInfo) => it.printable)).map
          (fun (it : BuildItemInfo) => it.worldBounds)).reduceOption
        match baselineWithBounds with
        | b0 :: rest =>
          let c := bboxListCenterXY b0 rest
          some (env.volX / 2 - c.1, env.volY / 2 - c.2)
        | [] => none
      else none
  match off₃ with
  | some o => some o
  | none =>
    if ¬ itemsWithBounds.isEmpty then
      let off := detectOriginOffsetXY
        (itemsWithBounds.map (fun (it : BuildItemInfo) => it.worldBounds))
        env.volX env.volY
      if |off.1| > 1 / 10 ^ 6 ∨ |off.2| > 1 / 10 ^ 6 then some off else none
    else none

/-- The effective box tested first by `_fully_inside`: the item's
`world_bounds`, overridden by the assemble-derived bounds when an assemble
transform exists whose translation lies outside the normal coordinate range
(`|tx| ≤ vol_x + 10 and |ty| ≤ vol_y + 10`) and the local-bounds transform
succeeds. -/
def fullyInsideEffectiveBounds (env : EnforceEnv) (it : BuildItemInfo)
    (wb : BBox3) : BBox3 :=
  match lookupAssemble env.assembleTransformsByObject env.assembleTransforms
      it.objectId it.buildItemIndex with
  | none => wb
  | some t3 =>
    let t3NormalRange :=
      |t3.getD 9 0| ≤ env.volX + 10 ∧ |t3.getD 10 0| ≤ env.volY + 10
    if t3NormalRange then wb
    else
      match boundsFromLocalAndTransform it (some t3) with
      | some wbFromAssemble => wbFromAssemble
      | none => wb

/-- The `wb_offset` box built inside `_fully_inside`: the effective bounds
shifted by the resolved display offset on X and Y only. -/
def shiftBBoxXY (wb : BBox3) (ox oy : ℚ) : BBox3 :=
  { wb with
    minX := wb.minX + ox, minY := wb.minY + oy
    maxX := wb.maxX + ox, maxY := wb.maxY + oy }

/-- `_fully_inside` inside `_enforce_transformed_bounds_or_raise` (lines
316-357), for a given resolved `assemble_preview_offset_xy`.  An item whose
`world_bounds` is absent fails every conversion in the source and yields
`False`. -/
def fullyInside (env : EnforceEnv) (offset : Option (ℚ × ℚ))
    (it : BuildItemInfo) : Bool :=
  match it.worldBounds with
  | none => false
  | some wb0 =>
    let wb := fullyInsideEffectiveBounds env it wb0
    if checkWbInVolume env.volX env.volY env.volZ wb then true
    else
      match offset with
      | some (ox, oy) =>
        checkWbInVolume env.volX env.volY env.volZ (shiftBBoxXY wb ox oy)
      | none => false

/-- The strict-precheck skip of lines 193-203: with an explicit plate
selection, when the indexed assemble `object_id` disagrees with the selected
build item's object id and no object-keyed assemble transform exists, the
check is skipped. -/
def enforceSkipMismatch (env : EnforceEnv)
    (itemsWithBounds : List BuildItemInfo) : Bool :=
  match env.plateId with
  | none => false
  | some pid =>
    let selected := itemsWithBounds.find? (fun it => it.buildItemIndex = pid)
    let selectedOid := match selected with
      | some it => it.objectId
      | none => ""
    let indexedOid := (env.assembleObjectIdsByIndex.lookup pid).getD ""
    let hasObjectKeyedAssemble :=
      selectedOid ≠ "" ∧
        (env.assembleTransformsByObject.lookup selectedOid).isSome
    selectedOid ≠ "" ∧ indexedOid ≠ "" ∧ selectedOid ≠ indexedOid ∧
      ¬ hasObjectKeyedAssemble

/-- The item-inside-volume check of `_enforce_transformed_bounds_or_raise`
(`routes_slice.py`, lines 172-375): `true` means this part of the function
raises a `SlicingError` (rejecting the mutation, so no output archive is
produced).  This models only the logic AFTER the `validator.
validate_3mf_bounds(file_path, plate_id=plate_id)` call of line 160; that
call itself raises `TypeError` on every invocation in this source (the
validator's signature takes no `plate_id`), see
`enforceTransformedBoundsOutcome` for the whole-function behavior.  A
`list_build_items_3mf` failure makes the source return without raising and
is outside this embedding. -/
def enforceTransformedBoundsRaises (env : EnforceEnv)
    (items : List BuildItemInfo) : Bool :=
  let printableItems := items.filter (·.printable)
  let itemsWithBounds := printableItems.filter (·.worldBounds.isSome)
  if itemsWithBounds.isEmpty then false
  else if enforceSkipMismatch env itemsWithBounds then false
  else
    let offset := resolveAssemblePreviewOffset env itemsWithBounds
    !(itemsWithBounds.any (fullyInside env offset))

/-- The parameters of `PlateValidator.validate_3mf_bounds` other than
`self` (`plate_validator.py` line 33: `def validate_3mf_bounds(self,
file_path: Path)`).  In Python every such parameter can also be addressed
by keyword. -/
def validate3mfBoundsParamNames : List String := ["file_path"]

/-- The keyword-argument names of the call
`validator.validate_3mf_bounds(file_path, plate_id=plate_id)` at
`routes_slice.py` line 160. -/
def enforceValidatorCallKeywordNames : List String := ["plate_id"]

/-- Python call semantics: passing a keyword argument whose name is not
among the callee's parameter names raises
`TypeError: ... got an unexpected keyword argument ...` before the callee
body runs. -/
def pyCallHasUnexpectedKeyword (paramNames keywordNames : List String) :
    Bool :=
  keywordNames.any (fun k => !(paramNames.contains k))

/-- The observable outcome of one `_enforce_transformed_bounds_or_raise`
invocation: an uncaught `TypeError` from the validator call, a
`SlicingError` validation failure, or a normal return. -/
inductive EnforceOutcome where
  | typeError
  | slicingError
  | ok
  deriving DecidableEq, Repr

/-- `_enforce_transformed_bounds_or_raise` (`routes_slice.py`, lines
151-375) as a whole, validator call included.  Line 160 calls
`validator.validate_3mf_bounds(file_path, plate_id=plate_id)` outside any
`try`, while `plate_validator.py` defines `validate_3mf_bounds(self,
file_path)` with no `plate_id` parameter, so the call raises `TypeError`
and the function never reaches the warning inspection of lines 161-168 or
the item check modelled by `enforceTransformedBoundsRaises`. -/
def enforceTransformedBoundsOutcome (env : EnforceEnv)
    (items : List BuildItemInfo) : EnforceOutcome :=
  if pyCallHasUnexpectedKeyword validate3mfBoundsParamNames
      enforceValidatorCallKeywordNames then
    .typeError
  else if enforceTransformedBoundsRaises env items then .slicingError
  else .ok

/-- A value in the flat `project_settings.config` JSON document
(`profile_embedder.py`): either a non-list scalar or a list of atoms
(modelled as strings, matching the document's stringly typed arrays). -/
inductive CfgValue where
  | scalar (s : String)
  | arr (xs : List String)
  deriving DecidableEq, Repr

/-- `_NON_FILAMENT_LIST_KEYS` from `profile_embedder.py`. -/
def NON_FILAMENT_LIST_KEYS : List String :=
  ["compatible_printers", "compatible_prints"]

/-- `_SPECIAL_LIST_KEYS` from `profile_embedder.py`. -/
def SPECIAL_LIST_KEYS : List String :=
  ["flush_volumes_matrix", "flush_volumes_vector",
   "different_settings_to_system", "inherits_group",
   "upward_compatible_machine", "printable_area", "bed_exclude_area",
   "thumbnails", "head_wrap_detect_zone", "extruder_offset",
   "wipe_tower_x", "wipe_tower_y"]

/-- `(xs + [xs[-1]] * needed)[:needed]` — the resize formula used for the
flush-volume special keys. -/
def resizeRepeatLast (xs : List String) (needed : ℕ) : List String :=
  (xs ++ List.replicate needed (xs.getLastD "")).take needed

/-- The per-entry effect of `_normalize_per_filament_arrays`
(`profile_embedder.py`, lines 424-470) on one key/value pair of the
settings document: the main loop skips the union of the two exempt key
sets (and empty or scalar values), pads short lists by repeating the last
element and truncates long lists to `target_count`; the two flush-volume
keys are then resized to `N*N` and `2*N` by the trailing special cases.
The Python dict holds each key once, so the document-level function is the
entrywise map below. -/
def normalizeEntry (targetCount : ℕ) (key : String) (value : CfgValue) :
    String × CfgValue :=
  if key = "flush_volumes_matrix" then
    match value with
    | .arr xs =>
      if xs.length = 0 then (key, value)
      else
        let needed := targetCount * targetCount
        if xs.length = needed then (key, value)
        else (key, .arr (resizeRepeatLast xs needed))
    | _ => (key, value)
  else if key = "flush_volumes_vector" then
    match value with
    | .arr xs =>
      if xs.length = 0 then (key, value)
      else
        let needed := targetCount * 2
        if xs.length = needed then (key, value)
        else (key, .arr (resizeRepeatLast xs needed))
    | _ => (key, value)
  else if key ∈ NON_FILAMENT_LIST_KEYS ∨ key ∈ SPECIAL_LIST_KEYS then
    (key, value)
  else
    match value with
    | .arr xs =>
      if xs.length = 0 ∨ xs.length = targetCount then (key, value)
      else if xs.length < targetCount then
        (key, .arr (xs ++ List.replicate (targetCount - xs.length)
          (xs.getLastD "")))
      else (key, .arr (xs.take targetCount))
    | .scalar _ => (key, value)

/-- `_normalize_per_filament_arrays` on a whole settings document. -/
def normalizePerFilamentArrays (config : List (String × CfgValue))
    (targetCount : ℕ) : List (String × CfgValue) :=
  config.map (fun kv => normalizeEntry targetCount kv.1 kv.2)

/-- One `<build><item>` element of `3D/3dmodel.model` as handled by
`extract_plate_to_3mf` (`multi_plate_parser.py`): the `printable` attribute
it rewrites, plus the remaining attributes (objectid, transform, ...) left
untouched, kept abstract. -/
structure BuildXmlItem (α : Type) where
  printable : Option String
  restAttrs : α
  deriving DecidableEq, Repr

/-- The parsed model XML: the `<resources>` section (abstract, untouched by
plate extraction) and the `<build>` item list. -/
structure ModelXml (ρ α : Type) where
  resources : ρ
  buildItems : List (BuildXmlItem α)
  deriving DecidableEq, Repr

/-- A 3MF archive as touched by `extract_plate_to_3mf`: the model member
plus every other ZIP entry (name and raw bytes, kept abstract as β). -/
structure Archive3mf (ρ α β : Type) where
  model : ModelXml ρ α
  otherEntries : List (String × β)
  deriving DecidableEq, Repr

/-- The item rewrite loop of `extract_plate_to_3mf`:
`for idx, item in enumerate(items, start=1): item.set("printable", "1" if
idx == target_plate_id else "0")`. -/
def setPrintableFlags {α : Type} (targetPlateId : ℤ) :
    ℤ → List (BuildXmlItem α) → List (BuildXmlItem α)
  | _, [] => []
  | idx, it :: rest =>
    let flag : String := if idx = targetPlateId then "1" else "0"
    { it with printable := some flag } ::
      setPrintableFlags targetPlateId (idx + 1) rest

/-- `extract_plate_to_3mf` from `multi_plate_parser.py` (lines 1005-1084).
`parse_multi_plate_3mf` reports a single-plate file whenever the build
section has at most one item, in which case the source copies the archive
byte-for-byte (`shutil.copy2`); otherwise the parsed plates are numbered
`1..N` in item order, so a target id is found iff it lies in `[1, N]`, and
the source rewrites only each item's `printable` attribute, re-serializes
the model via `ET.tostring` (line 1070) and copies every other entry's
bytes unchanged.  The abstract entry types make the embedding incapable of
altering resource or entry content, so this models the model member at
parsed-structure level: STRUCTURAL identity of the resources section is
expressible, byte identity is not — and indeed does not hold, because the
re-serialization rewrites namespace prefixes (see `etGeneratedPrefix` and
`serializeTagOpen`). -/
def extractPlateTo3mf {ρ α β : Type} (src : Archive3mf ρ α β)
    (targetPlateId : ℤ) : Except String (Archive3mf ρ α β) :=
  let items := src.model.buildItems
  if items.length ≤ 1 then .ok src
  else if targetPlateId < 1 ∨ targetPlateId > items.length then
    .error "plate not found"
  else
    let items' := setPrintableFlags targetPlateId 1 items
    .ok { src with model := { src.model with buildItems := items' } }

/-- The XML namespace URI of the 3MF core schema.  3MF model files declare
it as the DEFAULT namespace (`xmlns="..."`), so the source bytes of
`3D/3dmodel.model` carry unprefixed tags such as `<resources>`. -/
def threeMfCoreNamespaceUri : String :=
  "http://schemas.microsoft.com/3dmanufacturing/core/2015/02"

/-- The opening-tag bytes of an XML element with the given local name as
serialized under prefix `pfx`; the empty prefix stands for the default
namespace (no prefix, no colon). -/
def serializeTagOpen (pfx localName : String) : String :=
  if pfx = "" then "<" ++ localName else "<" ++ pfx ++ ":" ++ localName

/-- `xml.etree.ElementTree.tostring` serializes an element whose namespace
URI has no registered prefix under a generated prefix `ns0`, `ns1`, ... in
order of first occurrence.  No module of this repository ever calls
`register_namespace`, so the 3MF core namespace of the model that
`extract_plate_to_3mf` re-serializes at `multi_plate_parser.py` line 1070
receives the generated prefix `ns` + index (index 0 for the first
namespace encountered). -/
def etGeneratedPrefix (index : ℕ) : String := "ns" ++ toString index

/-- One segment collected by `_parse_segments`
(`gcode_image_renderer.py`): start/end coordinates and the active tool. -/
structure GSeg where
  x1 : ℚ
  y1 : ℚ
  z1 : ℚ
  x2 : ℚ
  y2 : ℚ
  z2 : ℚ
  tool : ℕ
  deriving DecidableEq, Repr

/-- The streaming state of `_parse_segments`: current XYZE position, the
positioning/extrusion modes, active tool, the collected extrusion and
(decimated) travel segments, the travel counter and the max extrusion Z. -/
structure GcodeState where
  x : ℚ
  y : ℚ
  z : ℚ
  e : ℚ
  absolutePos : Bool
  absoluteExt : Bool
  currentTool : ℕ
  extrusions : List GSeg
  travels : List GSeg
  travelCount : ℕ
  maxZ : ℚ
  deriving DecidableEq, Repr

/-- One G-code line after the source's lexical phase (comment stripping and
the `COORD_RE` regex): tool select `T<n>`, the four mode switches, `G92`
axis reset, a `G0`/`G1`/`G2`/`G3` move carrying its optional X/Y/Z/E words,
or any other line (discarded by the parser). -/
inductive GcodeLine where
  | toolSelect (n : ℕ)
  | g90
  | g91
  | m82
  | m83
  | g92 (x y z e : Option ℚ)
  | move (x y z e : Option ℚ)
  | other
  deriving DecidableEq, Repr

/-- Update of one axis by a move word: absolute mode replaces the
coordinate, relative mode adds the word value, a missing word keeps it. -/
def applyAxis (absolute : Bool) (cur : ℚ) (word : Option ℚ) : ℚ :=
  match word with
  | none => cur
  | some v => if absolute then v else cur + v

/-- `TRAVEL_DECIMATE` from `_parse_segments`: keep 1 in N travel moves. -/
def TRAVEL_DECIMATE : ℕ := 10

/-- The per-line transition of `_parse_segments`
(`gcode_image_renderer.py`, lines 79-179). -/
def parseSegmentsStep (s : GcodeState) : GcodeLine → GcodeState
  | .toolSelect n => { s with currentTool := n }
  | .g90 => { s with absolutePos := true }
  | .g91 => { s with absolutePos := false }
  | .m82 => { s with absoluteExt := true }
  | .m83 => { s with absoluteExt := false }
  | .g92 ox oy oz oe =>
    { s with x := ox.getD s.x, y := oy.getD s.y, z := oz.getD s.z,
             e := oe.getD s.e }
  | .move ox oy oz oe =>
    let x' := applyAxis s.absolutePos s.x ox
    let y' := applyAxis s.absolutePos s.y oy
    let z' := applyAxis s.absolutePos s.z oz
    let e' := applyAxis s.absoluteExt s.e oe
    let moved : GcodeState := { s with x := x', y := y', z := z', e := e' }
    if |x' - s.x| < 1 / 1000 ∧ |y' - s.y| < 1 / 1000 then moved
    else
      let seg : GSeg := ⟨s.x, s.y, s.z, x', y', z', s.currentTool⟩
      if e' > s.e then
        { moved with
          extrusions := s.extrusions ++ [seg]
          maxZ := if z' > s.maxZ then z' else s.maxZ }
      else
        let tc := s.travelCount + 1
        { moved with
          travelCount := tc
          travels :=
            if tc % TRAVEL_DECIMATE = 0 then s.travels ++ [seg]
            else s.travels }
  | .other => s

/-- The initial state of `_parse_segments`: origin pose, absolute
positioning, relative extrusion, tool 0. -/
def initGcodeState : GcodeState :=
  { x := 0, y := 0, z := 0, e := 0, absolutePos := true, absoluteExt := false
    currentTool := 0, extrusions := [], travels := [], travelCount := 0
    maxZ := 0 }

/-- `_parse_segments` over a pre-lexed line list. -/
def parseSegments (lines : List GcodeLine) : GcodeState :=
  lines.foldl parseSegmentsStep initGcodeState

/-- `DEFAULT_TOOL_COLORS` from `gcode_image_renderer.py`. -/
def DEFAULT_TOOL_COLORS : List (ℤ × ℤ × ℤ) :=
  [(59, 130, 246), (239, 68, 68), (34, 197, 94), (234, 179, 8),
   (168, 85, 247), (236, 72, 153), (20, 184, 166), (249, 115, 22)]

/-- Hex digit value, as accepted by Python `int(s, 16)`. -/
def hexDigitVal (c : Char) : Option ℕ :=
  if '0' ≤ c ∧ c ≤ '9' then some (c.toNat - '0'.toNat)
  else if 'a' ≤ c ∧ c ≤ 'f' then some (c.toNat - 'a'.toNat + 10)
  else if 'A' ≤ c ∧ c ≤ 'F' then some (c.toNat - 'A'.toNat + 10)
  else none

/-- ASCII whitespace stripped by Python `int`. -/
def isPySpace (c : Char) : Bool :=
  c = ' ' ∨ c = '\t' ∨ c = '\n' ∨ c = '\r' ∨ c = '\x0B' ∨ c = '\x0C'

/-- Digit tail of a Python base-16 literal: hex digits with single
underscores allowed between digits. -/
def pyHexDigits : ℕ → List Char → Option ℕ
  | acc, [] => some acc
  | acc, '_' :: c :: cs =>
    match hexDigitVal c with
    | some d => pyHexDigits (acc * 16 + d) cs
    | none => none
  | acc, c :: cs =>
    match hexDigitVal c with
    | some d => pyHexDigits (acc * 16 + d) cs
    | none => none

/-- Python `int(s, 16)` on a short slice (as taken by `hex_to_rgb`):
surrounding ASCII whitespace, an optional sign, then a non-empty hex digit
sequence; `none` models `ValueError`.  (The `0x` prefix form needs at least
three characters and is unreachable from the 2-character slices used
here.) -/
def pyIntHex (cs : List Char) : Option ℤ :=
  let trimmed :=
    ((cs.dropWhile isPySpace).reverse.dropWhile isPySpace).reverse
  let core : List Char → Option ℤ := fun l =>
    match l with
    | [] => none
    | c :: rest =>
      match hexDigitVal c with
      | some d => (pyHexDigits d rest).map (fun n => (n : ℤ))
      | none => none
  match trimmed with
  | '+' :: rest => core rest
  | '-' :: rest => (core rest).map (fun n => -n)
  | rest => core rest

/-- `hex_to_rgb` from `gcode_image_renderer.py` (lines 43-51): strip
leading `#`, double a 3-digit shorthand, parse the three 2-character
slices, falling back to the default blue on any parse failure. -/
def hexToRgb (s : String) : ℤ × ℤ × ℤ :=
  let h := s.toList.dropWhile (· = '#')
  let h := match h with
    | [a, b, c] => [a, a, b, b, c, c]
    | l => l
  match pyIntHex (h.take 2), pyIntHex ((h.drop 2).take 2),
      pyIntHex ((h.drop 4).take 2) with
  | some r, some g, some b => (r, g, b)
  | _, _, _ => (59, 130, 246)

/-- `_build_tool_colors` from `gcode_image_renderer.py` (lines 54-72).
`none` models a `None` argument; the loop appends exactly one color per
input entry, so the default-palette index `len(tool_colors)` at iteration
`i` equals `i`. -/
def buildToolColors (filamentColors : Option (List String)) :
    List (ℤ × ℤ × ℤ) :=
  match filamentColors with
  | none => DEFAULT_TOOL_COLORS
  | some [] => DEFAULT_TOOL_COLORS
  | some cs =>
    cs.enum.map (fun (ic : ℕ × String) =>
      if ic.2.startsWith "#" then
        let rgb := hexToRgb ic.2
        if rgb.1 + rgb.2.1 + rgb.2.2 < 80 then
          (max rgb.1 60, max rgb.2.1 60, max rgb.2.2 60)
        else rgb
      else DEFAULT_TOOL_COLORS.getD (ic.1 % DEFAULT_TOOL_COLORS.length)
        (59, 130, 246))

/-! ## Claim theorems -/

lemma reduceOption_map_some (l : List ℚ) : (l.map some).reduceOption = l := by
  induction l with
  | nil => rfl
  | cons a t ih => simp [List.reduceOption_cons_of_some, ih]

lemma map_some_no_none (l : List ℚ) : (l.map some).any (·.isNone) = false := by
  induction l with
  | nil => rfl
  | cons a t ih => simp [ih]

/-- C4: for every input (None, empty, non-numeric text, any token count)
the 3MF transform parser returns a 12-element affine without raising — the
embedding is a total function; 12 numeric tokens are returned as-is, 16
numeric tokens are reduced to the 3x4 submatrix keeping elements
0-2, 4-6, 8-10, 12-14, and every other input (including `None`, the empty
string and any token on which `float` raises) yields the identity
transform.  `_parse_3mf_transform_values` of the multi-plate parser agrees
with `_parse_3mf_transform` in its default-identity mode. -/
theorem c4_parse_transform_spec (input : Option (List (Option ℚ))) :
    (parse3mfTransform input).length = 12 ∧
    parse3mfTransformValues input true = parse3mfTransform input ∧
    (input = none → parse3mfTransform input = IDENTITY_3MF) ∧
    (∀ toks, input = some toks → toks.any (·.isNone) = true →
      parse3mfTransform input = IDENTITY_3MF) ∧
    (∀ vals : List ℚ, input = some (vals.map some) →
      (vals.length = 12 → parse3mfTransform input = vals) ∧
      (vals.length = 16 → parse3mfTransform input =
        [vals.getD 0 0, vals.getD 1 0, vals.getD 2 0,
         vals.getD 4 0, vals.getD 5 0, vals.getD 6 0,
         vals.getD 8 0, vals.getD 9 0, vals.getD 10 0,
         vals.getD 12 0, vals.getD 13 0, vals.getD 14 0]) ∧
      (vals.length ≠ 12 → vals.length ≠ 16 →
        parse3mfTransform input = IDENTITY_3MF)) := by
  refine ⟨?_, ?_, ?_, ?_, ?_⟩
  · cases input with
    | none => rfl
    | some toks =>
      simp only [parse3mfTransform]
      split
      · rfl
      · split
        · next h => exact h
        · split
          · rfl
          · rfl
  · cases input with
    | none => rfl
    | some toks =>
      simp only [parse3mfTransform, parse3mfTransformValues]
      split
      · next h => simp [h]
      · next h => simp [h]
  · rintro rfl; rfl
  · rintro toks rfl h
    simp [parse3mfTransform, h]
  · rintro vals rfl
    refine ⟨?_, ?_, ?_⟩
    · intro h12
      simp [parse3mfTransform, map_some_no_none, reduceOption_map_some, h12]
    · intro h16
      simp [parse3mfTransform, map_some_no_none, reduceOption_map_some, h16]
    · intro h12 h16
      simp [parse3mfTransform, map_some_no_none, reduceOption_map_some,
        h12, h16]

/-- Witness for C4 at a concrete 16-token input. -/
theorem c4_parse_transform_spec_witness :
    (([(0 : ℚ), 1, 2, 3, 4, 5, 6, 7, 8, 9, 10, 11, 12, 13, 14,
       15].map some).any (·.isNone) = false) ∧
    parse3mfTransform (some ([(0 : ℚ), 1, 2, 3, 4, 5, 6, 7, 8, 9, 10, 11,
      12, 13, 14, 15].map some)) =
      [0, 1, 2, 4, 5, 6, 8, 9, 10, 12, 13, 14] := by
  refine ⟨by decide, ?_⟩
  have h := (c4_parse_transform_spec (some ([(0 : ℚ), 1, 2, 3, 4, 5, 6, 7,
    8, 9, 10, 11, 12, 13, 14, 15].map some))).2.2.2.2
    [(0 : ℚ), 1, 2, 3, 4, 5, 6, 7, 8, 9, 10, 11, 12, 13, 14, 15] rfl
  simpa using h.2.1 (by decide)

lemma fmtValue_close (v : ℚ) : |fmtValue v - v| ≤ 1 / 10 ^ 6 := by
  unfold fmtValue
  split
  · next h =>
    rw [zero_sub, abs_neg]
    calc |v| ≤ 1 / 10 ^ 10 := le_of_lt h
    _ ≤ 1 / 10 ^ 6 := by norm_num
  · have h2 : |(round (v * 10 ^ 6) : ℚ) - v * 10 ^ 6| ≤ 1 / 2 := by
      rw [abs_sub_comm]; exact abs_sub_round (v * 10 ^ 6)
    have h3 : ((round (v * 10 ^ 6) : ℤ) : ℚ) / 10 ^ 6 - v =
        ((round (v * 10 ^ 6) : ℚ) - v * 10 ^ 6) / 10 ^ 6 := by
      field_simp
      ring
    rw [h3, abs_div]
    rw [abs_of_pos (by norm_num : (0 : ℚ) < 10 ^ 6)]
    calc |(round (v * 10 ^ 6) : ℚ) - v * 10 ^ 6| / 10 ^ 6
        ≤ (1 / 2) / 10 ^ 6 := by gcongr
    _ ≤ 1 / 10 ^ 6 := by norm_num

/-- C5: for every valid 12-token transform string (modelled by its parsed
value list of length 12), formatting and re-parsing yields 12 numeric
tokens that parse back to `formatParse3mfTransform vs`, and each value
agrees with the original to within `1e-6` absolute tolerance. -/
theorem c5_format_parse_roundtrip (vs : List ℚ) (h12 : vs.length = 12) :
    parse3mfTransform (some ((formatParse3mfTransform vs).map some)) =
      formatParse3mfTransform vs ∧
    ∀ i, i < 12 →
      |(formatParse3mfTransform vs).getD i 0 - vs.getD i 0| ≤ 1 / 10 ^ 6 := by
  constructor
  · have hlen : (formatParse3mfTransform vs).length = 12 := by
      simp [formatParse3mfTransform, h12]
    simp [parse3mfTransform, map_some_no_none, reduceOption_map_some, hlen]
  · intro i hi
    have hvs : vs.take 12 = vs := List.take_of_length_le (by omega)
    have hi' : i < vs.length := by omega
    have hgd : (formatParse3mfTransform vs).getD i 0 =
        fmtValue (vs.getD i 0) := by
      rw [formatParse3mfTransform, hvs,
        List.getD_eq_getElem _ _ (by simpa using hi'),
        List.getD_eq_getElem _ _ hi']
      simp
    rw [hgd]
    exact fmtValue_close _

/-- Witness for C5 at a concrete 12-value transform. -/
theorem c5_format_parse_roundtrip_witness :
    ([(1 : ℚ), 0, 0, 0, 1, 0, 0, 0, 1, 1 / 3, -(1 / 10 ^ 12),
      270].length = 12) ∧
    |(formatParse3mfTransform [(1 : ℚ), 0, 0, 0, 1, 0, 0, 0, 1, 1 / 3,
        -(1 / 10 ^ 12), 270]).getD 9 0 -
      ([(1 : ℚ), 0, 0, 0, 1, 0, 0, 0, 1, 1 / 3, -(1 / 10 ^ 12),
        270]).getD 9 0| ≤ 1 / 10 ^ 6 :=
  ⟨by decide,
   (c5_format_parse_roundtrip [(1 : ℚ), 0, 0, 0, 1, 0, 0, 0, 1, 1 / 3,
     -(1 / 10 ^ 12), 270] (by decide)).2 9 (by decide)⟩

/-- C1: for every item set with world bounding boxes and every bed size,
`_detect_origin_offset_xy` returns `(0, 0)` whenever the union bounding box
fits both the bed-corner interpretation and the bed-center-shifted
interpretation within the 2mm margin (tie-break preferring no offset),
returns `(bed_x/2, bed_y/2)` when only the center hypothesis fits, `(0, 0)`
when only the corner hypothesis fits, and defaults to `(bed_x/2, bed_y/2)`
when neither fits. -/
theorem c1_detect_origin_offset (bounds : List (Option BBox3))
    (bedX bedY : ℚ) (b0 : BBox3) (rest : List BBox3)
    (h : bounds.reduceOption = b0 :: rest) :
    (((rest.map (·.minX)).foldr min b0.minX ≥ -2 ∧
        (rest.map (·.maxX)).foldr max b0.maxX ≤ bedX + 2 ∧
        (rest.map (·.minY)).foldr min b0.minY ≥ -2 ∧
        (rest.map (·.maxY)).foldr max b0.maxY ≤ bedY + 2) ∧
      ((rest.map (·.minX)).foldr min b0.minX + bedX / 2 ≥ -2 ∧
        (rest.map (·.maxX)).foldr max b0.maxX + bedX / 2 ≤ bedX + 2 ∧
        (rest.map (·.minY)).foldr min b0.minY + bedY / 2 ≥ -2 ∧
        (rest.map (·.maxY)).foldr max b0.maxY + bedY / 2 ≤ bedY + 2) →
      detectOriginOffsetXY bounds bedX bedY = (0, 0)) ∧
    (((rest.map (·.minX)).foldr min b0.minX + bedX / 2 ≥ -2 ∧
        (rest.map (·.maxX)).foldr max b0.maxX + bedX / 2 ≤ bedX + 2 ∧
        (rest.map (·.minY)).foldr min b0.minY + bedY / 2 ≥ -2 ∧
        (rest.map (·.maxY)).foldr max b0.maxY + bedY / 2 ≤ bedY + 2) →
      ¬ ((rest.map (·.minX)).foldr min b0.minX ≥ -2 ∧
        (rest.map (·.maxX)).foldr max b0.maxX ≤ bedX + 2 ∧
        (rest.map (·.minY)).foldr min b0.minY ≥ -2 ∧
        (rest.map (·.maxY)).foldr max b0.maxY ≤ bedY + 2) →
      detectOriginOffsetXY bounds bedX bedY = (bedX / 2, bedY / 2)) ∧
    (((rest.map (·.minX)).foldr min b0.minX ≥ -2 ∧
        (rest.map (·.maxX)).foldr max b0.maxX ≤ bedX + 2 ∧
        (rest.map (·.minY)).foldr min b0.minY ≥ -2 ∧
        (rest.map (·.maxY)).foldr max b0.maxY ≤ bedY + 2) →
      ¬ ((rest.map (·.minX)).foldr min b0.minX + bedX / 2 ≥ -2 ∧
        (rest.map (·.maxX)).foldr max b0.maxX + bedX / 2 ≤ bedX + 2 ∧
        (rest.map (·.minY)).foldr min b0.minY + bedY / 2 ≥ -2 ∧
        (rest.map (·.maxY)).foldr max b0.maxY + bedY / 2 ≤ bedY + 2) →
      detectOriginOffsetXY bounds bedX bedY = (0, 0)) ∧
    (¬ ((rest.map (·.minX)).foldr min b0.minX ≥ -2 ∧
        (rest.map (·.maxX)).foldr max b0.maxX ≤ bedX + 2 ∧
        (rest.map (·.minY)).foldr min b0.minY ≥ -2 ∧
        (rest.map (·.maxY)).foldr max b0.maxY ≤ bedY + 2) →
      ¬ ((rest.map (·.minX)).foldr min b0.minX + bedX / 2 ≥ -2 ∧
        (rest.map (·.maxX)).foldr max b0.maxX + bedX / 2 ≤ bedX + 2 ∧
        (rest.map (·.minY)).foldr min b0.minY + bedY / 2 ≥ -2 ∧
        (rest.map (·.maxY)).foldr max b0.maxY + bedY / 2 ≤ bedY + 2) →
      detectOriginOffsetXY bounds bedX bedY = (bedX / 2, bedY / 2)) := by
  simp only [detectOriginOffsetXY, h]
  refine ⟨?_, ?_, ?_, ?_⟩ <;> intro hc <;> try intro hc2
  all_goals split_ifs <;> first | rfl | tauto

/-- Witness for C1: a single box that fits both interpretations on a
270x270 bed yields the no-offset (bed-corner) answer. -/
theorem c1_detect_origin_offset_witness :
    ([some (⟨10, 10, 0, 20, 20, 5⟩ : BBox3)].reduceOption =
      (⟨10, 10, 0, 20, 20, 5⟩ : BBox3) :: []) ∧
    detectOriginOffsetXY [some (⟨10, 10, 0, 20, 20, 5⟩ : BBox3)] 270 270 =
      (0, 0) :=
  ⟨by decide,
   (c1_detect_origin_offset [some (⟨10, 10, 0, 20, 20, 5⟩ : BBox3)] 270 270
     ⟨10, 10, 0, 20, 20, 5⟩ [] (by decide)).1 (by norm_num)⟩

lemma foldPackedUp_spec (s : ℚ) (_hs : 0 < s) :
    ∀ (n : ℕ) (v : ℚ), -(n * s) ≤ v →
      0 ≤ foldPackedUp v s n ∧
        (foldPackedUp v s n = v ∨ foldPackedUp v s n < s) := by
  intro n
  induction n with
  | zero =>
    intro v hv
    simp only [foldPackedUp]
    constructor
    · simpa using hv
    · exact Or.inl (by simp)
  | succ n ih =>
    intro v hv
    simp only [foldPackedUp]
    split
    · next hge => exact ⟨hge, Or.inl rfl⟩
    · next hlt =>
      push_neg at hlt
      have hrec := ih (v + s) (by push_cast at hv; nlinarith)
      refine ⟨hrec.1, ?_⟩
      rcases hrec.2 with heq | hlt2
      · exact Or.inr (by rw [heq]; linarith)
      · exact Or.inr hlt2

lemma foldPackedDown_spec (s b : ℚ) (_hs : 0 < s) :
    ∀ (n : ℕ) (v : ℚ), v ≤ b + n * s →
      foldPackedDown v s b n ≤ b ∧
        (foldPackedDown v s b n = v ∨ b - s < foldPackedDown v s b n) := by
  intro n
  induction n with
  | zero =>
    intro v hv
    simp only [foldPackedDown]
    constructor
    · simpa using hv
    · exact Or.inl (by simp)
  | succ n ih =>
    intro v hv
    simp only [foldPackedDown]
    split
    · next hle => exact ⟨hle, Or.inl rfl⟩
    · next hgt =>
      push_neg at hgt
      have hrec := ih (v - s) (by push_cast at hv; nlinarith)
      refine ⟨hrec.1, ?_⟩
      rcases hrec.2 with heq | hlt2
      · exact Or.inr (by rw [heq]; linarith)
      · exact Or.inr hlt2

/-- Counterexample to C7 as stated: for coordinate 280, detected step 300
and bed 270, the fold subtracts once to -20, which does not lie inside
`[0, bed]`. -/
theorem c7_counterexample :
    foldPackedPlateCoord 280 300 270 = -20 ∧
      ¬ (0 ≤ foldPackedPlateCoord 280 300 270 ∧
         foldPackedPlateCoord 280 300 270 ≤ 270) := by
  constructor
  · norm_num [foldPackedPlateCoord, foldPackedUp, foldPackedDown, max_def]
  · norm_num [foldPackedPlateCoord, foldPackedUp, foldPackedDown, max_def]

/-- C7 (amended): the per-axis folding function is a bounded computation
(at most 8 upward and 8 downward step adjustments by construction); a
non-positive step returns the value unchanged, and the result lies inside
`[0, max(1, bed)]` whenever the step does not exceed the effective bed size
and the coordinate is within 8 steps of that interval.  (As the
counterexample shows, the result can lie outside `[0, bed]` when the
detected step exceeds the bed size.) -/
theorem c7_fold_packed_plate_coord (value step bedSize : ℚ) :
    (¬ step > 0 → foldPackedPlateCoord value step bedSize = value) ∧
    (step > 0 → step ≤ max 1 bedSize → -(8 * step) ≤ value →
      value ≤ max 1 bedSize + 8 * step →
      0 ≤ foldPackedPlateCoord value step bedSize ∧
        foldPackedPlateCoord value step bedSize ≤ max 1 bedSize) := by
  constructor
  · intro hns
    simp [foldPackedPlateCoord, hns]
  · intro hs hsb hlo hhi
    have hup := foldPackedUp_spec step hs 8 value (by push_cast; linarith)
    set r1 := foldPackedUp value step 8 with hr1
    have hr1hi : r1 ≤ max 1 bedSize + 8 * step := by
      rcases hup.2 with heq | hlt
      · rw [heq]; exact hhi
      · nlinarith
    have hdown := foldPackedDown_spec step (max 1 bedSize) hs 8 r1
      (by push_cast; linarith)
    set r2 := foldPackedDown r1 step (max 1 bedSize) 8 with hr2
    have hres : foldPackedPlateCoord value step bedSize = r2 := by
      simp only [foldPackedPlateCoord]
      rw [if_neg (by simpa using hs)]
    rw [hres]
    refine ⟨?_, hdown.1⟩
    rcases hdown.2 with heq | hlt
    · rw [heq]; exact hup.1
    · linarith

/-- Witness for C7: value -500 with step 250 on a 270 bed folds to 0,
inside `[0, 270]`. -/
theorem c7_fold_packed_plate_coord_witness :
    ((250 : ℚ) > 0 ∧ (250 : ℚ) ≤ max 1 270 ∧ -(8 * (250 : ℚ)) ≤ -500 ∧
      (-500 : ℚ) ≤ max 1 270 + 8 * 250) ∧
    0 ≤ foldPackedPlateCoord (-500) 250 270 ∧
      foldPackedPlateCoord (-500) 250 270 ≤ max 1 270 :=
  ⟨by norm_num,
   (c7_fold_packed_plate_coord (-500) 250 270).2 (by norm_num) (by norm_num)
     (by norm_num) (by norm_num)⟩

/-- C10: for every input (`None`, an empty list, or any list of strings,
including non-hex entries and near-black colors) the tool-color palette
builder returns a non-empty list of color triples, so the renderer's
per-segment lookup `tool_colors[tool % len(tool_colors)]` is an in-range
index for every non-negative tool and never divides by zero. -/
theorem c10_build_tool_colors (filamentColors : Option (List String)) :
    0 < (buildToolColors filamentColors).length ∧
    ∀ tool : ℕ, tool % (buildToolColors filamentColors).length <
      (buildToolColors filamentColors).length := by
  have hpos : 0 < (buildToolColors filamentColors).length := by
    cases filamentColors with
    | none => decide
    | some cs =>
      cases cs with
      | nil => decide
      | cons c rest => simp [buildToolColors]
  exact ⟨hpos, fun tool => Nat.mod_lt tool hpos⟩

/-- Counterexample to C6 as stated: an empty non-exempt array survives
normalization with length 0, not the target count. -/
theorem c6_counterexample :
    normalizePerFilamentArrays [("filament_colour", CfgValue.arr [])] 2 =
      [("filament_colour", CfgValue.arr [])] ∧
    "filament_colour" ∉ NON_FILAMENT_LIST_KEYS ∧
    "filament_colour" ∉ SPECIAL_LIST_KEYS ∧
    (List.length ([] : List String) ≠ 2) := by
  refine ⟨?_, by decide, by decide, by decide⟩
  rfl

/-- C6 (amended): for every settings document and target count N ≥ 1,
normalization maps each entry in place: every non-exempt NON-EMPTY list
value ends with length exactly N (short arrays padded by repeating the last
element, long arrays truncated), the two flush-volume keys are resized to
`N*N` and `2*N` when non-empty, every other exempt key is left untouched,
and scalars are untouched; empty arrays are skipped unchanged. -/
theorem c6_normalize_per_filament_arrays (targetCount : ℕ)
    (_hN : 1 ≤ targetCount) (key : String) (v : CfgValue) :
    (∀ config : List (String × CfgValue),
      normalizePerFilamentArrays config targetCount =
        config.map (fun kv => normalizeEntry targetCount kv.1 kv.2)) ∧
    (normalizeEntry targetCount key v).1 = key ∧
    (∀ xs, v = .arr xs → xs = [] →
      normalizeEntry targetCount key v = (key, v)) ∧
    (∀ s, v = .scalar s → normalizeEntry targetCount key v = (key, v)) ∧
    (∀ xs, v = .arr xs → xs ≠ [] →
      (key ∉ NON_FILAMENT_LIST_KEYS → key ∉ SPECIAL_LIST_KEYS →
        ∃ ys, (normalizeEntry targetCount key v).2 = .arr ys ∧
          ys.length = targetCount ∧
          (xs.length ≤ targetCount →
            ys = xs ++ List.replicate (targetCount - xs.length)
              (xs.getLastD "")) ∧
          (targetCount ≤ xs.length → ys = xs.take targetCount)) ∧
      (key = "flush_volumes_matrix" →
        ∃ ys, (normalizeEntry targetCount key v).2 = .arr ys ∧
          ys.length = targetCount * targetCount) ∧
      (key = "flush_volumes_vector" →
        ∃ ys, (normalizeEntry targetCount key v).2 = .arr ys ∧
          ys.length = targetCount * 2)) ∧
    (key ≠ "flush_volumes_matrix" → key ≠ "flush_volumes_vector" →
      key ∈ NON_FILAMENT_LIST_KEYS ∨ key ∈ SPECIAL_LIST_KEYS →
      normalizeEntry targetCount key v = (key, v)) := by
  refine ⟨fun config => rfl, ?_, ?_, ?_, ?_, ?_⟩
  · unfold normalizeEntry
    split_ifs <;> cases v <;> simp <;> split_ifs <;> rfl
  · rintro xs rfl rfl
    unfold normalizeEntry
    split_ifs <;> simp
  · rintro sv rfl
    unfold normalizeEntry
    split_ifs <;> rfl
  · rintro xs rfl hne
    have hlen0 : ¬ xs.length = 0 := by simpa using hne
    refine ⟨?_, ?_, ?_⟩
    · intro hnf hsp
      have hkm : key ≠ "flush_volumes_matrix" := by
        intro h; exact hsp (by rw [h]; decide)
      have hkv : key ≠ "flush_volumes_vector" := by
        intro h; exact hsp (by rw [h]; decide)
      unfold normalizeEntry
      rw [if_neg hkm, if_neg hkv, if_neg (by tauto)]
      by_cases hleq : xs.length = targetCount
      · refine ⟨xs, by simp [hlen0, hleq], hleq, ?_, ?_⟩
        · intro _; rw [hleq]; simp
        · intro _; rw [← hleq]; simp
      · by_cases hlt : xs.length < targetCount
        · refine ⟨xs ++ List.replicate (targetCount - xs.length)
            (xs.getLastD ""), ?_, ?_, ?_, ?_⟩
          · simp [hlen0, hleq, hlt]
          · simp
            omega
          · intro _; rfl
          · intro hge; omega
        · refine ⟨xs.take targetCount, ?_, ?_, ?_, ?_⟩
          · simp [hlen0, hleq, hlt]
          · simp
            omega
          · intro hle; omega
          · intro _; rfl
    · rintro rfl
      unfold normalizeEntry
      rw [if_pos rfl]
      by_cases heq : xs.length = targetCount * targetCount
      · exact ⟨xs, by simp [hlen0, heq], heq⟩
      · refine ⟨resizeRepeatLast xs (targetCount * targetCount),
          by simp [hlen0, heq], ?_⟩
        simp [resizeRepeatLast]
    · rintro rfl
      unfold normalizeEntry
      rw [if_neg (by decide), if_pos rfl]
      by_cases heq : xs.length = targetCount * 2
      · exact ⟨xs, by simp [hlen0, heq], heq⟩
      · refine ⟨resizeRepeatLast xs (targetCount * 2),
          by simp [hlen0, heq], ?_⟩
        simp [resizeRepeatLast]
  · intro hkm hkv hmem
    unfold normalizeEntry
    rw [if_neg hkm, if_neg hkv, if_pos hmem]

/-- Witness for C6 at a concrete non-exempt array: a 3-entry array is
truncated to the target count 2. -/
theorem c6_normalize_per_filament_arrays_witness :
    (1 ≤ 2) ∧
    ∃ ys, (normalizeEntry 2 "nozzle_temperature"
        (CfgValue.arr ["200", "210", "220"])).2 = CfgValue.arr ys ∧
      ys.length = 2 ∧ ys = ["200", "210"] := by
  refine ⟨by decide, ?_⟩
  obtain ⟨h1, -, -⟩ := (c6_normalize_per_filament_arrays 2 (by decide)
    "nozzle_temperature" (CfgValue.arr ["200", "210", "220"])).2.2.2.2.1
    ["200", "210", "220"] rfl (by decide)
  obtain ⟨ys, hys, hlen, -, htk⟩ := h1 (by decide) (by decide)
  exact ⟨ys, hys, hlen, by rw [htk (by decide)]; rfl⟩

/-- C9: in `_parse_segments`, a G0/G1/G2/G3 move whose XY displacement
reaches the 0.001 threshold is recorded as an extrusion segment iff the
tracked extrusion coordinate increases beyond its previous value (in
relative extrusion mode: iff the E word is positive), and otherwise as a
travel segment retained only when it is every 10th travel move; moves below
the threshold record nothing; extrusion segments are always retained. -/
theorem c9_segment_classification (s : GcodeState)
    (ox oy oz oe : Option ℚ) :
    (¬ (|applyAxis s.absolutePos s.x ox - s.x| < 1 / 1000 ∧
        |applyAxis s.absolutePos s.y oy - s.y| < 1 / 1000) →
      ((parseSegmentsStep s (.move ox oy oz oe)).extrusions =
          s.extrusions ++ [⟨s.x, s.y, s.z, applyAxis s.absolutePos s.x ox,
            applyAxis s.absolutePos s.y oy, applyAxis s.absolutePos s.z oz,
            s.currentTool⟩] ↔
        applyAxis s.absoluteExt s.e oe > s.e) ∧
      (applyAxis s.absoluteExt s.e oe > s.e →
        (parseSegmentsStep s (.move ox oy oz oe)).travels = s.travels) ∧
      (¬ applyAxis s.absoluteExt s.e oe > s.e →
        (parseSegmentsStep s (.move ox oy oz oe)).extrusions =
          s.extrusions ∧
        ((parseSegmentsStep s (.move ox oy oz oe)).travels =
            s.travels ++ [⟨s.x, s.y, s.z, applyAxis s.absolutePos s.x ox,
              applyAxis s.absolutePos s.y oy, applyAxis s.absolutePos s.z oz,
              s.currentTool⟩] ↔
          (s.travelCount + 1) % TRAVEL_DECIMATE = 0) ∧
        ((s.travelCount + 1) % TRAVEL_DECIMATE ≠ 0 →
          (parseSegmentsStep s (.move ox oy oz oe)).travels = s.travels))) ∧
    ((|applyAxis s.absolutePos s.x ox - s.x| < 1 / 1000 ∧
        |applyAxis s.absolutePos s.y oy - s.y| < 1 / 1000) →
      (parseSegmentsStep s (.move ox oy oz oe)).extrusions = s.extrusions ∧
      (parseSegmentsStep s (.move ox oy oz oe)).travels = s.travels) ∧
    (s.absoluteExt = false → ∀ d, oe = some d →
      (applyAxis s.absoluteExt s.e oe > s.e ↔ 0 < d)) := by
  refine ⟨?_, ?_, ?_⟩
  · intro hdisp
    simp only [parseSegmentsStep]
    rw [if_neg hdisp]
    by_cases he : s.e < applyAxis s.absoluteExt s.e oe
    · rw [if_pos he]
      exact ⟨⟨fun _ => he, fun _ => rfl⟩, fun _ => rfl,
        fun hne => absurd he hne⟩
    · rw [if_neg he]
      refine ⟨⟨fun habs => ?_, fun h => absurd h he⟩, fun h => absurd h he,
        fun _ => ⟨by simp, ?_, fun hturn => by simp [hturn]⟩⟩
      · have hlen := congrArg List.length habs
        simp at hlen
      · by_cases hturn : (s.travelCount + 1) % TRAVEL_DECIMATE = 0
        · simp [hturn]
        · simp only [hturn, if_false, iff_false]
          intro habs
          have hlen := congrArg List.length habs
          simp [hturn] at hlen
  · intro hdisp
    simp only [parseSegmentsStep]
    rw [if_pos hdisp]
    exact ⟨rfl, rfl⟩
  · intro habs d hd
    subst hd
    simp [applyAxis, habs]

/-- Witness for C9: from the initial state (relative extrusion), a
`G1 X10 Y10 E1` move is recorded as an extrusion segment. -/
theorem c9_segment_classification_witness :
    (¬ (|applyAxis initGcodeState.absolutePos initGcodeState.x (some 10) -
          initGcodeState.x| < 1 / 1000 ∧
        |applyAxis initGcodeState.absolutePos initGcodeState.y (some 10) -
          initGcodeState.y| < 1 / 1000)) ∧
    ((parseSegmentsStep initGcodeState
        (.move (some 10) (some 10) none (some 1))).extrusions =
      initGcodeState.extrusions ++ [⟨initGcodeState.x, initGcodeState.y,
        initGcodeState.z,
        applyAxis initGcodeState.absolutePos initGcodeState.x (some 10),
        applyAxis initGcodeState.absolutePos initGcodeState.y (some 10),
        applyAxis initGcodeState.absolutePos initGcodeState.z none,
        initGcodeState.currentTool⟩]) :=
  ⟨by norm_num [applyAxis, initGcodeState],
   ((c9_segment_classification initGcodeState (some 10) (some 10) none
     (some 1)).1 (by norm_num [applyAxis, initGcodeState])).1.mpr
     (by norm_num [applyAxis, initGcodeState])⟩

lemma applyLayoutPTOM_spec (frame : PlacementFrame)
    (items : List LayoutItem) (pts : List (ℤ × Vec3)) (bedX bedY : ℚ)
    (allow : Bool) (hpts : pts.isEmpty = false)
    (hany : (items.any (fun it => it.buildItemIndex ≤ 0 ∨
      (pts.lookup it.buildItemIndex).isNone)) = false) :
    ∃ fr : PlacementFrame,
      applyLayoutBambuPlateTranslationOffsetMapping frame items pts bedX
          bedY allow =
        (fr, items.map (fun it =>
          match pts.lookup it.buildItemIndex with
          | some pt =>
            let coreT := it.translation
            let ux := (coreT.x - pt.x) + bedX / 2
            let uy := (coreT.y - pt.y) + bedY / 2
            { it with uiBasePose := some (⟨ux, uy, coreT.z⟩, 0) }
          | none => it)) ∧
      fr.mapping = .bambuPlateTranslationOffset ∧
      fr.confidence = (if allow then .exact else .approximate) ∧
      fr.objectTransformEdit = allow ∧
      fr.primeTowerEdit = true := by
  unfold applyLayoutBambuPlateTranslationOffsetMapping
  rw [if_neg (by simp only [hpts]; exact Bool.false_ne_true),
    if_neg (by simp only [hany]; exact Bool.false_ne_true)]
  refine ⟨_, rfl, ?_, ?_, ?_, ?_⟩ <;> (repeat' split) <;> simp

/-- C2: for a multi-plate layout whose per-plate packed translations are
resolvable (a non-empty plate-translation map covering every item's
positive 1-based index), the placement-frame derivation chooses the
plate-translation-offset mapping regardless of any inferred grid steps
(i.e. in preference to grid folding), computes each item's UI pose as
`ui_xy = build-item translation xy - plate packed translation xy +
bed center xy` (keeping the build-item Z), and marks the frame exact with
object move/rotate editing enabled iff a plate is selected and exactly one
item is in scope; otherwise the frame is approximate with object editing
disabled.  Prime-tower editing stays enabled. -/
theorem c2_plate_translation_offset_mapping (items : List LayoutItem)
    (plateId : Option ℤ) (bedX bedY : ℚ)
    (plateTranslations : List (ℤ × Vec3))
    (packedGridSteps : Option ℚ × Option ℚ) (recenterOffset : ℚ × ℚ)
    (validationBounds : Option BBox3) (hne : items ≠ [])
    (hpt : plateTranslations ≠ [])
    (hres : ∀ it ∈ items, 0 < it.buildItemIndex ∧
      (plateTranslations.lookup it.buildItemIndex).isSome) :
    (deriveLayoutPlacementFrame items true plateId bedX bedY
        plateTranslations packedGridSteps recenterOffset
        validationBounds).1.mapping = .bambuPlateTranslationOffset ∧
    ((deriveLayoutPlacementFrame items true plateId bedX bedY
        plateTranslations packedGridSteps recenterOffset
        validationBounds).1.confidence = .exact ↔
      plateId.isSome ∧ items.length = 1) ∧
    ((deriveLayoutPlacementFrame items true plateId bedX bedY
        plateTranslations packedGridSteps recenterOffset
        validationBounds).1.objectTransformEdit = true ↔
      plateId.isSome ∧ items.length = 1) ∧
    (deriveLayoutPlacementFrame items true plateId bedX bedY
        plateTranslations packedGridSteps recenterOffset
        validationBounds).1.primeTowerEdit = true ∧
    List.Forall₂ (fun it it' =>
      ∀ pt, plateTranslations.lookup it.buildItemIndex = some pt →
        it' = { it with uiBasePose := some (⟨it.translation.x - pt.x + bedX / 2, it.translation.y - pt.y + bedY / 2, it.translation.z⟩, 0) })
      items
      (deriveLayoutPlacementFrame items true plateId bedX bedY
        plateTranslations packedGridSteps recenterOffset
        validationBounds).2 := by
  have hne' : items.isEmpty = false := by simp [List.isEmpty_iff, hne]
  have hpt' : plateTranslations.isEmpty = false := by
    simp [List.isEmpty_iff, hpt]
  have hany : (items.any (fun it => it.buildItemIndex ≤ 0 ∨
      (plateTranslations.lookup it.buildItemIndex).isNone)) = false := by
    rw [List.any_eq_false]
    intro it hit
    obtain ⟨h1, h2⟩ := hres it hit
    simp only [decide_eq_true_eq, not_or]
    refine ⟨not_le.mpr h1, ?_⟩
    simp_all
  obtain ⟨fr, hEq, hmap, hconf, hedit, hptw⟩ :=
    applyLayoutPTOM_spec
      { confidence := .approximate, mapping := .direct, offsetXY := (0, 0),
        objectTransformEdit := false, primeTowerEdit := true }
      items plateTranslations bedX bedY
      (decide (plateId.isSome ∧ items.length = 1)) hpt' hany
  have hder : deriveLayoutPlacementFrame items true plateId bedX bedY
      plateTranslations packedGridSteps recenterOffset validationBounds =
      (fr, items.map (fun it =>
        match plateTranslations.lookup it.buildItemIndex with
        | some pt =>
          let coreT := it.translation
          let ux := (coreT.x - pt.x) + bedX / 2
          let uy := (coreT.y - pt.y) + bedY / 2
          { it with uiBasePose := some (⟨ux, uy, coreT.z⟩, 0) }
        | none => it)) := by
    simp only [deriveLayoutPlacementFrame, hne', Bool.not_true, hpt',
      Bool.false_eq_true, if_false, hEq, hmap, reduceIte]
  rw [hder]
  refine ⟨hmap, ?_, ?_, hptw, ?_⟩
  · rw [hconf]
    by_cases hP : plateId.isSome ∧ items.length = 1 <;> simp [hP]
  · rw [hedit]
    by_cases hP : plateId.isSome ∧ items.length = 1 <;> simp [hP]
  · rw [List.forall₂_map_right_iff, List.forall₂_same]
    intro it hit pt hl
    simp [hl]

/-- Witness for C2: a selected single plate with a known packed translation
maps to an exact editable frame with pose `(160-150+135, 160-150+135)`. -/
theorem c2_plate_translation_offset_mapping_witness :
    (([⟨1, ⟨160, 160, 5⟩, none, none, none, none⟩] :
        List LayoutItem) ≠ []) ∧
    (([((1 : ℤ), (⟨150, 150, 0⟩ : Vec3))] : List (ℤ × Vec3)) ≠ []) ∧
    (deriveLayoutPlacementFrame
        [⟨1, ⟨160, 160, 5⟩, none, none, none, none⟩] true (some 1) 270 270
        [((1 : ℤ), (⟨150, 150, 0⟩ : Vec3))] (none, none) (0, 0)
        none).1.mapping = .bambuPlateTranslationOffset ∧
    (deriveLayoutPlacementFrame
        [⟨1, ⟨160, 160, 5⟩, none, none, none, none⟩] true (some 1) 270 270
        [((1 : ℤ), (⟨150, 150, 0⟩ : Vec3))] (none, none) (0, 0)
        none).1.confidence = .exact := by
  have h := c2_plate_translation_offset_mapping
    [⟨1, ⟨160, 160, 5⟩, none, none, none, none⟩] (some 1) 270 270
    [((1 : ℤ), (⟨150, 150, 0⟩ : Vec3))] (none, none) (0, 0) none
    (by decide) (by decide) (by decide)
  exact ⟨by decide, by decide, h.1, h.2.1.mpr (by decide)⟩

lemma setPrintableFlags_length {α : Type} (k : ℤ) :
    ∀ (idx : ℤ) (l : List (BuildXmlItem α)),
      (setPrintableFlags k idx l).length = l.length := by
  intro idx l
  induction l generalizing idx with
  | nil => rfl
  | cons it rest ih => simp [setPrintableFlags, ih]

lemma setPrintableFlags_get? {α : Type} (k : ℤ) :
    ∀ (l : List (BuildXmlItem α)) (idx : ℤ) (i : ℕ),
      (setPrintableFlags k idx l).get? i = (l.get? i).map (fun it =>
        { it with printable := some (if idx + i = k then "1" else "0") }) := by
  intro l
  induction l with
  | nil => intro idx i; rfl
  | cons it rest ih =>
    intro idx i
    cases i with
    | zero => simp [setPrintableFlags]
    | succ n =>
      simp only [setPrintableFlags, List.get?_cons_succ, ih (idx + 1) n]
      have harith : idx + 1 + (n : ℤ) = idx + (n + 1 : ℕ) := by
        push_cast
        ring
      rw [harith]

lemma setPrintableFlags_count_one {α : Type} (k : ℤ) :
    ∀ (l : List (BuildXmlItem α)) (idx : ℤ),
      ((setPrintableFlags k idx l).filter
        (fun it => it.printable = some "1")).length =
      if idx ≤ k ∧ k < idx + l.length then 1 else 0 := by
  intro l
  induction l with
  | nil =>
    intro idx
    simp only [setPrintableFlags, List.filter_nil, List.length_nil]
    rw [if_neg (by push_cast; omega)]
  | cons it rest ih =>
    intro idx
    by_cases hk : idx = k
    · simp only [setPrintableFlags, if_pos hk, List.filter_cons]
      rw [if_pos (by simp)]
      simp only [List.length_cons, ih (idx + 1)]
      split_ifs <;> push_cast at * <;> omega
    · simp only [setPrintableFlags, if_neg hk, List.filter_cons]
      rw [if_neg (by simp)]
      rw [ih (idx + 1)]
      simp only [List.length_cons]
      split_ifs <;> push_cast at * <;> omega

lemma setPrintableFlags_count_zero {α : Type} (k : ℤ) :
    ∀ (l : List (BuildXmlItem α)) (idx : ℤ),
      ((setPrintableFlags k idx l).filter
        (fun it => it.printable = some "0")).length =
      l.length - (if idx ≤ k ∧ k < idx + l.length then 1 else 0) := by
  intro l
  induction l with
  | nil =>
    intro idx
    simp [setPrintableFlags]
  | cons it rest ih =>
    intro idx
    by_cases hk : idx = k
    · simp only [setPrintableFlags, if_pos hk, List.filter_cons]
      rw [if_neg (by simp)]
      simp only [List.length_cons, ih (idx + 1)]
      split_ifs <;> push_cast at * <;> omega
    · simp only [setPrintableFlags, if_neg hk, List.filter_cons]
      rw [if_pos (by simp)]
      simp only [List.length_cons, ih (idx + 1)]
      split_ifs <;> push_cast at * <;> omega

/-- A concrete three-item archive used as the C8 witness input. -/
def c8ExampleArchive : Archive3mf String String String where
  model :=
    { resources := "resources-xml"
      buildItems := [⟨none, "a"⟩, ⟨some "1", "b"⟩, ⟨some "1", "c"⟩] }
  otherEntries := [("Metadata/x", "bytes")]

/-- C8 (amended): for a multi-plate archive with N ≥ 2 build items and a
target plate id `k ∈ [1, N]`, `extract_plate_to_3mf` succeeds and produces
an archive whose build section has exactly one `printable="1"` item —
item k — and N-1 items marked `printable="0"`, with a STRUCTURALLY
identical resources section (the model XML is re-serialized through
ElementTree, which rewrites its namespace prefixes, so the resource
section is equal as parsed XML but NOT byte-identical — see the
counterexample `c8_serialization_counterexample`), every other archive
entry preserved byte-for-byte and every item's remaining attributes
preserved; for a single-plate archive (at most one build item) the output
is an identical copy of the source. -/
theorem c8_extract_plate_printable_counts {ρ α β : Type}
    (src : Archive3mf ρ α β) (k : ℤ) :
    (src.model.buildItems.length ≤ 1 →
      extractPlateTo3mf src k = .ok src) ∧
    (2 ≤ src.model.buildItems.length → 1 ≤ k →
      k ≤ src.model.buildItems.length →
      ∃ out, extractPlateTo3mf src k = .ok out ∧
        out.otherEntries = src.otherEntries ∧
        out.model.resources = src.model.resources ∧
        out.model.buildItems.length = src.model.buildItems.length ∧
        ((out.model.buildItems.filter
          (fun it => it.printable = some "1")).length = 1) ∧
        ((out.model.buildItems.filter
          (fun it => it.printable = some "0")).length =
          src.model.buildItems.length - 1) ∧
        (∀ i : ℕ, out.model.buildItems.get? i =
          (src.model.buildItems.get? i).map (fun it =>
            { it with printable := some (if (i : ℤ) + 1 = k then "1" else "0") }))) := by
  constructor
  · intro hle
    unfold extractPlateTo3mf
    rw [if_pos hle]
  · intro hlen hk1 hk2
    have hEq : extractPlateTo3mf src k = .ok { model := { resources := src.model.resources, buildItems := setPrintableFlags k 1 src.model.buildItems }, otherEntries := src.otherEntries } := by
      unfold extractPlateTo3mf
      rw [if_neg (by omega), if_neg (by push_neg; omega)]
    refine ⟨_, hEq, rfl, rfl, ?_, ?_, ?_, ?_⟩
    · exact setPrintableFlags_length k 1 src.model.buildItems
    · rw [show ({ model := { resources := src.model.resources, buildItems := setPrintableFlags k 1 src.model.buildItems }, otherEntries := src.otherEntries } : Archive3mf ρ α β).model.buildItems = setPrintableFlags k 1 src.model.buildItems from rfl]
      rw [setPrintableFlags_count_one k src.model.buildItems 1]
      rw [if_pos (by constructor <;> omega)]
    · rw [show ({ model := { resources := src.model.resources, buildItems := setPrintableFlags k 1 src.model.buildItems }, otherEntries := src.otherEntries } : Archive3mf ρ α β).model.buildItems = setPrintableFlags k 1 src.model.buildItems from rfl]
      rw [setPrintableFlags_count_zero k src.model.buildItems 1]
      rw [if_pos (by constructor <;> omega)]
    · intro i
      rw [show ({ model := { resources := src.model.resources, buildItems := setPrintableFlags k 1 src.model.buildItems }, otherEntries := src.otherEntries } : Archive3mf ρ α β).model.buildItems = setPrintableFlags k 1 src.model.buildItems from rfl]
      rw [setPrintableFlags_get? k src.model.buildItems 1 i]
      have harith : (1 : ℤ) + i = i + 1 := by ring
      rw [harith]

/-- Witness for C8: extracting plate 2 of a concrete 3-item archive yields
exactly one printable item. -/
theorem c8_extract_plate_printable_counts_witness :
    (2 ≤ c8ExampleArchive.model.buildItems.length ∧ (1 : ℤ) ≤ 2 ∧
      (2 : ℤ) ≤ c8ExampleArchive.model.buildItems.length) ∧
    ∃ out, extractPlateTo3mf c8ExampleArchive 2 = .ok out ∧
      ((out.model.buildItems.filter
        (fun it => it.printable = some "1")).length = 1) := by
  refine ⟨⟨by decide, by decide, by decide⟩, ?_⟩
  obtain ⟨out, hok, -, -, -, hcount, -, -⟩ :=
    (c8_extract_plate_printable_counts c8ExampleArchive 2).2
      (by decide) (by decide) (by decide)
  exact ⟨out, hok, hcount⟩

lemma fullyInside_eq_false_iff (env : EnforceEnv) (off : Option (ℚ × ℚ))
    (it : BuildItemInfo) :
    fullyInside env off it = false ↔
      ∀ wb, it.worldBounds = some wb →
        checkWbInVolume env.volX env.volY env.volZ
          (fullyInsideEffectiveBounds env it wb) = false ∧
        ∀ ox oy, off = some (ox, oy) →
          checkWbInVolume env.volX env.volY env.volZ
            (shiftBBoxXY (fullyInsideEffectiveBounds env it wb) ox oy) =
            false := by
  cases hwb : it.worldBounds with
  | none =>
    simp only [fullyInside, hwb]
    constructor
    · intro _ wb hsome
      cases hsome
    · intro _
      trivial
  | some wb0 =>
    simp only [fullyInside, hwb]
    rcases off with _ | ⟨ox, oy⟩
    · constructor
      · intro h wb hsome
        injection hsome with h'
        subst h'
        by_cases hc : checkWbInVolume env.volX env.volY env.volZ
            (fullyInsideEffectiveBounds env it wb0) = true
        · rw [if_pos hc] at h
          exact absurd h (by simp)
        · exact ⟨by simpa using hc, fun ox oy hoo => by cases hoo⟩
      · intro h
        obtain ⟨h1, -⟩ := h wb0 rfl
        rw [if_neg (by simp [h1])]
    · constructor
      · intro h wb hsome
        injection hsome with h'
        subst h'
        by_cases hc : checkWbInVolume env.volX env.volY env.volZ
            (fullyInsideEffectiveBounds env it wb0) = true
        · rw [if_pos hc] at h
          exact absurd h (by simp)
        · refine ⟨by simpa using hc, ?_⟩
          rintro ox' oy' hoo
          injection hoo with h2
          rw [if_neg hc] at h
          obtain ⟨rfl, rfl⟩ : ox = ox' ∧ oy = oy' := by
            constructor <;> rw [Prod.mk.injEq] at h2 <;> tauto
          exact h
      · intro h
        obtain ⟨h1, h2⟩ := h wb0 rfl
        rw [if_neg (by simp [h1])]
        exact h2 ox oy rfl

/-- Characterization of the item-inside-volume check (`routes_slice.py`
lines 172-375, the part after the `PlateValidator` call): provided at
least one printable build item with computed world bounds exists and the
selected-plate assemble object-id cross-check does not force a skip, the
check would raise a `SlicingError` if and only if every printable item
with bounds fails both tried placements — its effective bounds (the
assemble-derived bounds when an assemble transform exists with translation
outside the normal coordinate range and local bounds are available,
replacing the plain world bounds; otherwise the plain world bounds) and
the same bounds shifted by the resolved placement-frame offset, each
against `[0,vol]` per axis at 1e-6 tolerance.  Note this logic sits after
the validator call of line 160, which raises `TypeError` on every
invocation in this source (see `enforceTransformedBoundsOutcome`). -/
theorem enforceItemCheck_raises_iff (env : EnforceEnv)
    (items : List BuildItemInfo)
    (hne : (items.filter (·.printable)).filter
      (fun it => it.worldBounds.isSome) ≠ [])
    (hskip : enforceSkipMismatch env ((items.filter (·.printable)).filter
      (fun it => it.worldBounds.isSome)) = false) :
    enforceTransformedBoundsRaises env items = true ↔
      ∀ it ∈ (items.filter (·.printable)).filter
          (fun it => it.worldBounds.isSome),
        ∀ wb, it.worldBounds = some wb →
          checkWbInVolume env.volX env.volY env.volZ
            (fullyInsideEffectiveBounds env it wb) = false ∧
          ∀ ox oy, resolveAssemblePreviewOffset env
              ((items.filter (·.printable)).filter
                (fun it => it.worldBounds.isSome)) = some (ox, oy) →
            checkWbInVolume env.volX env.volY env.volZ
              (shiftBBoxXY (fullyInsideEffectiveBounds env it wb) ox oy) =
              false := by
  simp only [enforceTransformedBoundsRaises]
  rw [if_neg (by simp only [List.isEmpty_iff]; exact hne),
    if_neg (by simp only [hskip]; exact Bool.false_ne_true)]
  rw [Bool.not_eq_true', List.any_eq_false]
  constructor
  · intro h it hit wb hwb
    have hf : fullyInside env (resolveAssemblePreviewOffset env
        ((items.filter (·.printable)).filter
          (fun it => it.worldBounds.isSome))) it = false := by
      have := h it hit
      simpa using this
    exact (fullyInside_eq_false_iff env _ it).mp hf wb hwb
  · intro h it hit
    have hf := (fullyInside_eq_false_iff env (resolveAssemblePreviewOffset
      env ((items.filter (·.printable)).filter
        (fun it => it.worldBounds.isSome))) it).mpr (h it hit)
    rw [hf]
    exact Bool.false_ne_true

/-- An environment with a packed assemble transform (translation 500,500
— outside the normal range) indexed for build item 1, no baseline, no
plate selection, a 270mm cube volume. -/
def packedAssembleEnv : EnforceEnv where
  assembleTransforms := [((1 : ℤ), [1, 0, 0, 0, 1, 0, 0, 0, 1, 500, 500, 0])]
  assembleTransformsByObject := []
  assembleObjectIdsByIndex := []
  hasBaseline := false
  baselineAssembleTransforms := []
  baselineAssembleTransformsByObject := []
  plateTranslationsRef := []
  baselineItems := []
  plateId := none
  volX := 270
  volY := 270
  volZ := 270

/-- An item whose plain world bounds lie fully on the bed but whose local
bounds land far off the bed under the packed assemble transform. -/
def packedAssembleItem : BuildItemInfo where
  buildItemIndex := 1
  objectId := "2"
  printable := true
  worldBounds := some ⟨100, 100, 0, 140, 140, 10⟩
  localBounds := some ⟨0, 0, 0, 40, 40, 10⟩

/-- The item check raises even when the item's PLAIN world bounds pass
the in-volume test: with a packed-range assemble transform present, the
assemble-derived bounds replace the plain world bounds rather than being
tried in addition to them. -/
theorem enforceItemCheck_packed_override :
    enforceTransformedBoundsRaises packedAssembleEnv [packedAssembleItem] = true ∧
    checkWbInVolume 270 270 270 ⟨100, 100, 0, 140, 140, 10⟩ = true := by
  have hiwb : (([packedAssembleItem].filter (·.printable)).filter
      (fun it => it.worldBounds.isSome)) = [packedAssembleItem] := by decide
  have hskips : enforceSkipMismatch packedAssembleEnv [packedAssembleItem] = false := by
    decide
  have hres : resolveAssemblePreviewOffset packedAssembleEnv [packedAssembleItem] =
      none := by
    norm_num [resolveAssemblePreviewOffset,
      getBambuPlateTranslationUiOffset, detectOriginOffsetXY,
      packedAssembleEnv, packedAssembleItem]
  have hfi : fullyInside packedAssembleEnv none packedAssembleItem = false := by
    norm_num [fullyInside, fullyInsideEffectiveBounds, lookupAssemble,
      boundsFromLocalAndTransform, applyAffineToBounds3x4,
      transformPoint3x4, checkWbInVolume, packedAssembleEnv, packedAssembleItem]
  constructor
  · have hstep : enforceTransformedBoundsRaises packedAssembleEnv [packedAssembleItem] =
        !([packedAssembleItem].any (fullyInside packedAssembleEnv
          (resolveAssemblePreviewOffset packedAssembleEnv [packedAssembleItem]))) := by
      simp only [enforceTransformedBoundsRaises, hiwb]
      rw [if_neg (by simp),
        if_neg (by simp only [hskips]; exact Bool.false_ne_true)]
    rw [hstep, hres]
    simp [hfi]
  · norm_num [checkWbInVolume, decide_eq_true_eq]

/-- An environment with no vendor metadata at all and a 270mm volume. -/
def offBedEnv : EnforceEnv where
  assembleTransforms := []
  assembleTransformsByObject := []
  assembleObjectIdsByIndex := []
  hasBaseline := false
  baselineAssembleTransforms := []
  baselineAssembleTransformsByObject := []
  plateTranslationsRef := []
  baselineItems := []
  plateId := none
  volX := 270
  volY := 270
  volZ := 270

/-- A sole printable item translated entirely outside `[0, 270]` on X. -/
def offBedItem : BuildItemInfo where
  buildItemIndex := 1
  objectId := "1"
  printable := true
  worldBounds := some ⟨300, 100, 0, 320, 120, 10⟩
  localBounds := none

/-- The out-of-bounds-rejection scenario for the item check: a translate
putting the sole printable item's world bounds entirely outside `[0, bed]`
on X makes the item check raise. -/
theorem enforceItemCheck_offbed_raises :
    (([offBedItem].filter (·.printable)).filter
      (fun it => it.worldBounds.isSome) ≠ []) ∧
    enforceSkipMismatch offBedEnv (([offBedItem].filter
      (·.printable)).filter (fun it => it.worldBounds.isSome)) = false ∧
    enforceTransformedBoundsRaises offBedEnv [offBedItem] = true := by
  refine ⟨by decide, by decide, ?_⟩
  apply (enforceItemCheck_raises_iff offBedEnv [offBedItem]
    (by decide) (by decide)).mpr
  intro it hit wb hwb
  have hItEq : it = offBedItem := by
    simpa [offBedItem] using hit
  subst hItEq
  have hwbEq : wb = ⟨300, 100, 0, 320, 120, 10⟩ := by
    have : some wb = some (⟨300, 100, 0, 320, 120, 10⟩ : BBox3) := by
      rw [← hwb]
      decide
    injection this
  subst hwbEq
  refine ⟨?_, ?_⟩
  · norm_num [checkWbInVolume, fullyInsideEffectiveBounds, lookupAssemble,
      offBedEnv, offBedItem]
  intro ox oy hoo
  have hres : resolveAssemblePreviewOffset offBedEnv
      (([offBedItem].filter (·.printable)).filter
        (fun it => it.worldBounds.isSome)) = some (135, 135) := by
    norm_num [resolveAssemblePreviewOffset,
      getBambuPlateTranslationUiOffset, detectOriginOffsetXY,
      offBedEnv, offBedItem]
  rw [hres] at hoo
  injection hoo with hpair
  rw [Prod.mk.injEq] at hpair
  obtain ⟨h1, h2⟩ := hpair
  subst h1
  subst h2
  norm_num [checkWbInVolume, shiftBBoxXY, fullyInsideEffectiveBounds,
    lookupAssemble, offBedEnv, offBedItem]

/-- C3 (code bug): the claim describes the intended bounds-enforcement
behavior — raise a validation failure iff no printable build item's
transformed bounds fit any tried placement — but the code cannot exhibit
it: the unconditional validator call at `routes_slice.py` line 160 passes
a `plate_id` keyword that `PlateValidator.validate_3mf_bounds`
(`plate_validator.py` line 33) does not accept, so EVERY invocation of
`_enforce_transformed_bounds_or_raise` raises `TypeError` — never the
claimed `SlicingError` validation failure and never a normal acceptance —
before any bounds check runs.  The second conjunct evaluates the function
at the claim's own out-of-bounds scenario (sole printable item entirely
outside `[0, bed]` on X): the outcome is the `TypeError`, not the
validation failure the claim predicts.  The intended downstream item
check is characterized separately in `enforceItemCheck_raises_iff`,
`enforceItemCheck_packed_override` and `enforceItemCheck_offbed_raises`. -/
theorem c3_enforce_validator_call_type_error (env : EnforceEnv)
    (items : List BuildItemInfo) :
    enforceTransformedBoundsOutcome env items = .typeError ∧
    enforceTransformedBoundsOutcome offBedEnv [offBedItem] = .typeError ∧
    EnforceOutcome.typeError ≠ EnforceOutcome.slicingError := by
  have hkw : pyCallHasUnexpectedKeyword validate3mfBoundsParamNames
      enforceValidatorCallKeywordNames = true := by decide
  refine ⟨?_, ?_, by decide⟩ <;>
    simp [enforceTransformedBoundsOutcome, hkw]

/-- Counterexample to C8 as stated: the extracted archive's XML resource
section is NOT byte-identical to the source's.  `extract_plate_to_3mf`
re-serializes the whole model XML through `ET.tostring`
(`multi_plate_parser.py` line 1070) and no module of the repository calls
`register_namespace`, so core-namespace elements that the source file
renders unprefixed under its default-namespace declaration come back with
the generated `ns0:` prefix: already the opening-tag bytes of the
resources section differ (`<ns0:resources` vs `<resources`).  The first
conjunct shows the extraction path that performs this re-serialization is
taken on a concrete 3-item archive. -/
theorem c8_serialization_counterexample :
    (extractPlateTo3mf c8ExampleArchive 2).isOk = true ∧
    serializeTagOpen (etGeneratedPrefix 0) "resources" =
      "<ns0:resources" ∧
    serializeTagOpen "" "resources" = "<resources" ∧
    serializeTagOpen (etGeneratedPrefix 0) "resources" ≠
      serializeTagOpen "" "resources" := by
  refine ⟨by decide, by decide, by decide, by decide⟩

end U1Bridge
